import Mathlib

/-! CHIP-8 disassembler (`decompiler.cc`): the disassembly step, the loader and the driver

The program has no instruction data type that `main` uses: the body of the
loop in `main` extracts the bit fields of the 16-bit word `insn` and runs one
chain of `if / else if` whose branches each call `printf` with a format
literal and an argument list.  The embedding keeps exactly that: the fields
are functions of `insn`, a branch is a `PrintfCall` (format literal and
arguments, in source order), and `mainLoopBody` returns the call the chain
executes, or `none` when no branch matches and nothing is printed.

`printf` is the C library function; it is modelled after the C standard for
the conversions the source uses (`%04X`, `%04x`, `%02x`, `%x`, `%d`).  A
conversion that finds no argument left is undefined behaviour in C and is
reported as `PrintfResult.undefined`, together with the text rendered before
it.  The word `insn` is a `uint16_t` and `addr` an `unsigned short`: both are
naturals below 65536, and the fields are `unsigned int`.

Around the chain, `Chip8Rom.ctor` is the constructor that loads the file
(its failures are the three `throw` statements), `main` is the control flow
of lines 72-86 up to the loop, `readInsn` is the word of line 88 and
`mainLoop` the `for` loop of lines 86-176, whose body, by the braces of the
source, ends in `delete rom; return EXIT_SUCCESS;`.  `Insn_SYS.ctor` is the
constructor of the one instruction structure the source declares.
-/

namespace Chip8

/-! ## Bit fields of an instruction word (decompiler.cc, lines 90-97) -/

/-- Line 90, `unsigned int u = insn >> 12 & 0xF;` -/
def u (insn : Nat) : Nat := (insn >>> 12) &&& 0xF

/-- Line 91, `unsigned int l = insn & 0xF;` -/
def l (insn : Nat) : Nat := insn &&& 0xF

/-- Line 93, `unsigned int nnn = insn & 0xFFF;` -/
def nnn (insn : Nat) : Nat := insn &&& 0xFFF

/-- Line 94, `unsigned int n = insn & 0xF;` -/
def n (insn : Nat) : Nat := insn &&& 0xF

/-- Line 95, `unsigned int x = insn >> 8 & 0xF;` -/
def x (insn : Nat) : Nat := (insn >>> 8) &&& 0xF

/-- Line 96, `unsigned int y = insn >> 4 & 0xF;` -/
def y (insn : Nat) : Nat := (insn >>> 4) &&& 0xF

/-- Line 97, `unsigned int kk = insn & 0xFF;` -/
def kk (insn : Nat) : Nat := insn &&& 0xFF

/-! ## The `if / else if` chain (decompiler.cc, lines 99-171) -/

/-- One executed `printf` statement: its format literal and the values of its
variadic arguments, in the order the source passes them. -/
structure PrintfCall where
  fmt : String
  args : List Nat
deriving DecidableEq, Repr

/-- Lines 116-134: the inner chain of family `0x8`, keyed on `l`.  There is no
final `else`: a value of `l` that no test accepts prints nothing. -/
def family8 (addr insn : Nat) : Option PrintfCall :=
  if l insn = 0x0 then
    some ⟨"\t0x%04X:\t%04x\tld   v%d, v%d\n", [addr, insn, x insn, y insn]⟩
  else if l insn = 0x1 then
    some ⟨"\t0x%04X:\t%04x\tor   v%d, v%d\n", [addr, insn, x insn, y insn]⟩
  else if l insn = 0x2 then
    some ⟨"\t0x%04X:\t%04x\tand  v%d, v%d\n", [addr, insn, x insn, y insn]⟩
  else if l insn = 0x3 then
    some ⟨"\t0x%04X:\t%04x\txor  v%d, v%d\n", [addr, insn, x insn, y insn]⟩
  else if l insn = 0x4 then
    some ⟨"\t0x%04X:\t%04x\tadd  v%d, v%d\n", [addr, insn, x insn, y insn]⟩
  else if l insn = 0x5 then
    some ⟨"\t0x%04X:\t%04x\tsub  v%d, v%d\n", [addr, insn, x insn, y insn]⟩
  else if l insn = 0x6 then
    some ⟨"\t0x%04X:\t%04x\tshr  v%d\n", [addr, insn, x insn]⟩
  else if l insn = 0x7 then
    some ⟨"\t0x%04X:\t%04x\tsubn v%d, v%d\n", [addr, insn, x insn, y insn]⟩
  else if l insn = 0xE then
    some ⟨"\t0x%04X:\t%04x\tshl  v%d\n", [addr, insn, x insn]⟩
  else none

/-- Lines 146-150: the inner chain of family `0xE`.  It tests `l`, the low
nibble of line 91, against the byte constants `0x9E` and `0xA1`. -/
def familyE (addr insn : Nat) : Option PrintfCall :=
  if l insn = 0x9E then
    some ⟨"\t0x%04X:\t%04x\tskp  v%d\n", [addr, insn, x insn]⟩
  else if l insn = 0xA1 then
    some ⟨"\t0x%04X:\t%04x\tsknp v%d\n", [addr, insn, x insn]⟩
  else none

/-- Lines 152-170: the inner chain of family `0xF`.  It tests `l`, the low
nibble of line 91, against the byte constants `0x07` ... `0x65`. -/
def familyF (addr insn : Nat) : Option PrintfCall :=
  if l insn = 0x07 then
    some ⟨"\t0x%04X:\t%04x\tld   v%d, DT\n", [addr, insn, x insn]⟩
  else if l insn = 0x0A then
    some ⟨"\t0x%04X:\t%04x\tld   v%d, K\n", [addr, insn, x insn]⟩
  else if l insn = 0x15 then
    some ⟨"\t0x%04X:\t%04x\tld   DT, v%d\n", [addr, insn, x insn]⟩
  else if l insn = 0x18 then
    some ⟨"\t0x%04X:\t%04x\tld   ST, v%d\n", [addr, insn, x insn]⟩
  else if l insn = 0x1E then
    some ⟨"\t0x%04X:\t%04x\tadd I, v%d\n", [addr, insn, x insn]⟩
  else if l insn = 0x29 then
    some ⟨"\t0x%04X:\t%04x\tld   F, v%d\n", [addr, insn, x insn]⟩
  else if l insn = 0x33 then
    some ⟨"\t0x%04X:\t%04x\tld   B, v%d\n", [addr, insn, x insn]⟩
  else if l insn = 0x55 then
    some ⟨"\t0x%04X:\t%04x\tld   [I], v%d\n", [addr, insn, x insn]⟩
  else if l insn = 0x65 then
    some ⟨"\t0x%04X:\t%04x\tld   v%d, [I]\n", [addr, insn, x insn]⟩
  else none

/-- Lines 99-171 of `main`: the outer chain on the family `u`, for the word
`insn` read at address `addr`.  The result is the `printf` statement the chain
executes; `none` is the case in which it executes none.  Families `0x5`, `0x9`
and `0xB` pass `insn` first and no `addr` (lines 110, 136, 140). -/
def mainLoopBody (addr insn : Nat) : Option PrintfCall :=
  if u insn = 0x0 then
    some ⟨"%04X\n", [insn]⟩
  else if u insn = 0x1 then
    some ⟨"\t0x%04X:\t%04x\tjmp  0x%04x\n", [addr, insn, nnn insn]⟩
  else if u insn = 0x2 then
    some ⟨"\t0x%04X:\t%04x\tcall 0x%04x\n", [addr, insn, nnn insn]⟩
  else if u insn = 0x3 then
    some ⟨"\t0x%04X:\t%04x\tse   v%d, 0x%02x (%d)\n", [addr, insn, x insn, kk insn, kk insn]⟩
  else if u insn = 0x4 then
    some ⟨"\t0x%04X:\t%04x\tsne  v%d, 0x%02x (%d)\n", [addr, insn, x insn, kk insn, kk insn]⟩
  else if u insn = 0x5 then
    some ⟨"\t0x%04X:\t%04x\tse   v%d, v%d (%d)\n", [insn, x insn, y insn]⟩
  else if u insn = 0x6 then
    some ⟨"\t0x%04X:\t%04x\tld   v%d, 0x%02x (%d)\n", [addr, insn, x insn, kk insn, kk insn]⟩
  else if u insn = 0x7 then
    some ⟨"\t0x%04X:\t%04x\tadd  v%d, 0x%02x (%d)\n", [addr, insn, x insn, kk insn, kk insn]⟩
  else if u insn = 0x8 then
    family8 addr insn
  else if u insn = 0x9 then
    some ⟨"\t0x%04X:\t%04x\tsne  v%d, v%d (%d)\n", [insn, x insn, y insn]⟩
  else if u insn = 0xA then
    some ⟨"\t0x%04X:\t%04x\tld   I, 0x%04x (%d)\n", [addr, insn, nnn insn, nnn insn]⟩
  else if u insn = 0xB then
    some ⟨"\t0x%04X:\t%04x\tjp   v0, 0x%04x (%d)\n", [insn, nnn insn]⟩
  else if u insn = 0xC then
    some ⟨"\t0x%04X:\t%04x\trnd  v%d, 0x%02x (%d)\n", [addr, insn, x insn, kk insn, kk insn]⟩
  else if u insn = 0xD then
    some ⟨"\t0x%04X:\t%04x\tdrw  v%d, v%d, 0x%x (%d)\n",
      [addr, insn, x insn, y insn, n insn, n insn]⟩
  else if u insn = 0xE then
    familyE addr insn
  else if u insn = 0xF then
    familyF addr insn
  else none

/-! ## `printf`, for the conversions the source uses -/

/-- The digit `d` (below 16) as a character, upper or lower case. -/
def hexDigit (upper : Bool) (d : Nat) : Char :=
  if d < 10 then Char.ofNat (48 + d)
  else if upper then Char.ofNat (55 + d) else Char.ofNat (87 + d)

/-- The digits of `v` in base `base`, most significant first, prepended to
`acc`; `fuel` bounds the number of digits. -/
def digitsAux (base : Nat) (upper : Bool) : Nat → Nat → List Char → List Char
  | 0, _, acc => acc
  | fuel + 1, v, acc =>
    if v / base = 0 then hexDigit upper (v % base) :: acc
    else digitsAux base upper fuel (v / base) (hexDigit upper (v % base) :: acc)

/-- The numeral of `v` in base `base` without padding (`0` is one digit). -/
def numeral (base : Nat) (upper : Bool) (v : Nat) : List Char :=
  digitsAux base upper (v + 1) v []

/-- Left padding with `0` (flag `0`) or blanks up to the minimum field width. -/
def pad (zero : Bool) (width : Nat) (cs : List Char) : List Char :=
  List.replicate (width - cs.length) (if zero then '0' else ' ') ++ cs

/-- A piece of a parsed format: a literal character, or a conversion
`%[0][width]kind`. -/
inductive Piece where
  | lit (c : Char)
  | conv (zero : Bool) (width : Nat) (kind : Char)
deriving DecidableEq, Repr

/-- Where the format scanner is: in literal text, or inside a conversion
after `%`, with the flag and the width read so far. -/
inductive Mode where
  | text
  | spec (zero : Bool) (width : Nat)
deriving DecidableEq, Repr

/-- Splits a format into pieces, one character at a time: after `%` a leading
`0` is the zero flag, further digits are the width, and the first other
character is the conversion. -/
def parseFormat : Mode → List Char → List Piece
  | _, [] => []
  | Mode.text, c :: rest =>
    if c = '%' then parseFormat (Mode.spec false 0) rest
    else Piece.lit c :: parseFormat Mode.text rest
  | Mode.spec zero width, c :: rest =>
    if c.isDigit then
      if c = '0' ∧ width = 0 then parseFormat (Mode.spec true 0) rest
      else parseFormat (Mode.spec zero (10 * width + (c.toNat - 48))) rest
    else Piece.conv zero width c :: parseFormat Mode.text rest

/-- The text of one conversion applied to a 32-bit argument: `X` and `x` are
unsigned hexadecimal, `d` is signed decimal; other conversions are not
modelled. -/
def convert (zero : Bool) (width : Nat) (kind : Char) (v : Nat) : Option (List Char) :=
  if kind = 'X' then some (pad zero width (numeral 16 true v))
  else if kind = 'x' then some (pad zero width (numeral 16 false v))
  else if kind = 'd' then
    if v < 2 ^ 31 then some (pad zero width (numeral 10 false v))
    else if zero then some ('-' :: pad true (width - 1) (numeral 10 false (2 ^ 32 - v)))
    else some (pad false width ('-' :: numeral 10 false (2 ^ 32 - v)))
  else none

/-- What a `printf` call writes: the whole text, or undefined behaviour after
the text `emitted` (a conversion without an argument). -/
inductive PrintfResult where
  | ok (text : String)
  | undefined (emitted : String)
deriving DecidableEq, Repr

/-- Renders the pieces left to right, consuming one argument per conversion. -/
def render : List Piece → List Nat → List Char → PrintfResult
  | [], _, out => PrintfResult.ok (String.mk out)
  | Piece.lit c :: ps, args, out => render ps args (out ++ [c])
  | Piece.conv _ _ _ :: _, [], out => PrintfResult.undefined (String.mk out)
  | Piece.conv z w k :: ps, v :: args, out =>
    match convert z w k v with
    | some cs => render ps args (out ++ cs)
    | none => PrintfResult.undefined (String.mk out)

/-- The C call `printf(fmt, args...)`. -/
def printf (c : PrintfCall) : PrintfResult :=
  render (parseFormat Mode.text c.fmt.data) c.args []

/-- The text one pass of the loop body writes for `insn` at `addr`: `none`
when no `printf` statement is executed. -/
def output (addr insn : Nat) : Option PrintfResult :=
  (mainLoopBody addr insn).map printf

/-! ## The SYS instruction value (decompiler.cc, lines 22-28) -/

/-- Lines 22-28, `struct Insn_SYS`: the members it declares itself, `opcode`
and `addr`, are both `uint8_t`.  (The members of the base `Chip8Insn` are left
uninitialised by the constructor and are not modelled.) -/
structure Insn_SYS where
  mnemonic : String
  opcode : Nat
  addr : Nat
deriving DecidableEq, Repr

/-- Line 27, `Insn_SYS(uint8_t opcode) : opcode(opcode), addr(opcode & 0x0FFF)`.
The parameter is a `uint8_t`, so a wider argument `w` is converted modulo 256
at the call, and the member `addr` is a `uint8_t` as well. -/
def Insn_SYS.ctor (w : Nat) : Insn_SYS :=
  let opcode := w % 2 ^ 8
  { mnemonic := "SYS 0x%06d", opcode := opcode, addr := (opcode &&& 0x0FFF) % 2 ^ 8 }

/-! ## The loader (decompiler.cc, lines 30-60) -/

/-- Line 49, the argument of `malloc`: `0x1000` when `rom_size < 0xE00`, else
`0x200 + rom_size`, in `size_t` arithmetic (64 bits). -/
def allocSize (rom_size : Nat) : Nat :=
  if rom_size < 0xE00 then 0x1000 else (0x200 + rom_size) % 2 ^ 64

/-- Lines 30-37, `struct Chip8Rom`: the block `rom` points to, as its size and
its bytes (each 0..255, by offset), and `rom_size`. -/
structure Chip8Rom where
  size : Nat
  rom : Nat → Nat
  rom_size : Nat

/-- What the constructor meets outside the program: whether the stream opens
(line 42), the position `tellg` returns (line 46), the block `malloc` returns
as its initial, indeterminate bytes, or `none` for a null pointer (line 51),
the bytes of the file, and whether the read fails (line 57). -/
structure LoadEnv where
  opens : Bool
  tellg : Nat
  malloc : Nat → Option (Nat → Nat)
  file : List Nat
  readFails : Bool

/-- Lines 39-60, `Chip8Rom::Chip8Rom`: the three `throw` statements are the
`Except.error` results, with the message of the `runtime_error`; line 55
stores the file at offsets `512 .. 512 + rom_size - 1` of the block. -/
def Chip8Rom.ctor (env : LoadEnv) : Except String Chip8Rom :=
  if env.opens = false then Except.error "[ERROR] could not open rom image."
  else
    match env.malloc (allocSize env.tellg) with
    | none => Except.error "[ERROR] allocating memory"
    | some block =>
      if env.readFails = true then Except.error "[ERROR] reading from file"
      else Except.ok
        { size := allocSize env.tellg
          rom := fun o =>
            if 512 ≤ o ∧ o < 512 + env.tellg then env.file.getD (o - 512) 0 else block o
          rom_size := env.tellg }

/-! ## The driver (decompiler.cc, lines 72-88) -/

/-- The value of a `char` holding the byte `b`: where `char` is signed, a byte
of 128 or more is negative. -/
def charValue (charSigned : Bool) (b : Nat) : Int :=
  if charSigned = true ∧ 128 ≤ b then (b : Int) - 256 else (b : Int)

/-- Line 88, `uint16_t insn = rom->rom[addr] * 0x100 + rom->rom[addr+1];` for
the bytes `hi` at `addr` and `lo` at `addr + 1`: the `char` values are promoted
to `int`, and the sum is converted to `uint16_t`, modulo 65536. -/
def readInsn (charSigned : Bool) (hi lo : Nat) : Nat :=
  ((charValue charSigned hi * 0x100 + charValue charSigned lo) % 65536).toNat

/-- Lines 86-87: the values the loop header gives `addr`, `0x200 + i * 2` as an
`unsigned short`, for `i` from 0 while `i < 120`. -/
def loopAddrs : List Nat :=
  (List.range 120).map (fun i => (0x200 + i * 2) % 65536)

/-- How a pass of the loop body ends: at the closing brace of the body, after
which the loop goes on with `++i`, or in a `return` statement. -/
inductive PassEnd where
  | next
  | returned
deriving DecidableEq, Repr

/-- Lines 87-175, one pass of the body of the `for` loop, as the braces of the
source put it.  The brace of line 171 closes the chain, and the next closing
brace is the last one of the file (line 176): it closes the body of the loop,
so the statements `delete rom; return EXIT_SUCCESS;` of lines 173-175 belong
to the body and every pass ends in the `return`.  (The function `main` is
then left without its closing brace.)  The result is the address of the pass,
what the pass writes, and how it ends. -/
def loopPass (charSigned : Bool) (r : Chip8Rom) (addr : Nat) :
    (Nat × Option PrintfResult) × PassEnd :=
  ((addr, output addr (readInsn charSigned (r.rom addr) (r.rom (addr + 1)))),
    PassEnd.returned)

/-- The passes made over the addresses the loop header gives, in order: a
pass that ends in `return` is the last one. -/
def runLoop (charSigned : Bool) (r : Chip8Rom) : List Nat → List (Nat × Option PrintfResult)
  | [] => []
  | addr :: rest =>
    match loopPass charSigned r addr with
    | (p, PassEnd.returned) => [p]
    | (p, PassEnd.next) => p :: runLoop charSigned r rest

/-- Lines 86-176, the `for` loop: the passes it makes, each with its address
and what it writes. -/
def mainLoop (charSigned : Bool) (r : Chip8Rom) : List (Nat × Option PrintfResult) :=
  runLoop charSigned r loopAddrs

/-- Whether control reaches the `for` loop of line 86, and with what in the
pointer `rom`: `some r` after a successful `new Chip8Rom`, `none` when the
pointer was never assigned. -/
inductive LoopEntry where
  | notEntered
  | entered (rom : Option Chip8Rom)

/-- Lines 72-86 of `main`, up to the loop: the lines written by `puts` and how
the loop is reached.  With `argc != 2` the usage text is written and `main`
returns (lines 73-76).  Otherwise the `catch` block of lines 82-84 writes the
message of the exception and has no `return`: control goes on to line 86. -/
def main (argc : Nat) (load : Except String Chip8Rom) : List String × LoopEntry :=
  if argc ≠ 2 then (["usage: c8dc filename"], LoopEntry.notEntered)
  else
    match load with
    | Except.ok r => ([], LoopEntry.entered (some r))
    | Except.error e => ([e], LoopEntry.entered none)

/-- The listing of a whole run: the outputs of the loop passes, when the loop
runs on a loaded ROM. -/
def listing (charSigned : Bool) (argc : Nat) (env : LoadEnv) :
    Option (List (Option PrintfResult)) :=
  match (main argc (Chip8Rom.ctor env)).2 with
  | LoopEntry.entered (some r) => some ((mainLoop charSigned r).map Prod.snd)
  | _ => none

/-- The end-to-end example: the 2-byte file `12 00` (the word `0x1200`),
opened, measured and read without failure into a block whose bytes are all 0
before the read. -/
def romJP200 : LoadEnv :=
  ⟨true, 2, fun _ => some (fun _ => 0), [0x12, 0x00], false⟩

/-- A file of 4 bytes, `12 00 12 02` (the words `0x1200` and `0x1202`), opened,
measured and read without failure into a block whose bytes are all 0 before
the read. -/
def rom4 : LoadEnv :=
  ⟨true, 4, fun _ => some (fun _ => 0), [0x12, 0x00, 0x12, 0x02], false⟩

/-! ## The head of a line -/

/-- The four hexadecimal digits of a 16-bit value. -/
def hex4Digits (upper : Bool) (v : Nat) : List Char :=
  [hexDigit upper (v / 4096), hexDigit upper (v / 256 % 16), hexDigit upper (v / 16 % 16),
    hexDigit upper (v % 16)]

/-- The text the common head `\t0x%04X:\t%04x\t` of the formats writes for
the arguments `a` and `w`: a tab, `0x`, `a` in four upper-case digits, a colon,
a tab, `w` in four lower-case digits, a tab. -/
def lineHead (a w : Nat) : List Char :=
  ['\t', '0', 'x'] ++ hex4Digits true a ++ [':', '\t'] ++ hex4Digits false w ++ ['\t']

/-- The pieces of the common head `\t0x%04X:\t%04x\t`. -/
def headPieces : List Piece :=
  [Piece.lit '\t', Piece.lit '0', Piece.lit 'x', Piece.conv true 4 'X', Piece.lit ':',
    Piece.lit '\t', Piece.conv true 4 'x', Piece.lit '\t']

/-- Every conversion among the pieces is one of `X`, `x`, `d`. -/
def convsKnown : List Piece → Bool
  | [] => true
  | Piece.lit _ :: ps => convsKnown ps
  | Piece.conv _ _ k :: ps => (k = 'X' ∨ k = 'x' ∨ k = 'd') && convsKnown ps

/-- The number of conversions among the pieces. -/
def convCount : List Piece → Nat
  | [] => 0
  | Piece.lit _ :: ps => convCount ps
  | Piece.conv _ _ _ :: ps => convCount ps + 1

/-- A format that starts with the common head and has `k` conversions, all of
them modelled. -/
def headedFormat (f : String) (k : Nat) : Bool :=
  headPieces.isPrefixOf (parseFormat Mode.text f.data) &&
    convsKnown (parseFormat Mode.text f.data) &&
    (convCount (parseFormat Mode.text f.data) = k)

/-! ## Numerals and padding -/

theorem digitsAux_append (b : Nat) (up : Bool) :
    ∀ (f v : Nat) (acc : List Char), digitsAux b up f v acc = digitsAux b up f v [] ++ acc := by
  intro f
  induction f with
  | zero => intro v acc; simp [digitsAux]
  | succ f ih =>
    intro v acc
    simp only [digitsAux]
    split
    · simp
    · rw [ih (v / b) (hexDigit up (v % b) :: acc), ih (v / b) [hexDigit up (v % b)]]
      simp

theorem digitsAux_fuel (b : Nat) (up : Bool) (hb : 2 ≤ b) :
    ∀ (f1 f2 v : Nat) (acc : List Char), v < f1 → v < f2 →
      digitsAux b up f1 v acc = digitsAux b up f2 v acc := by
  intro f1
  induction f1 with
  | zero => intro f2 v acc h; omega
  | succ f1 ih =>
    intro f2 v acc h1 h2
    cases f2 with
    | zero => omega
    | succ f2 =>
      simp only [digitsAux]
      split
      · rfl
      · rename_i hne
        have hpos : 0 < v := by
          rcases Nat.eq_zero_or_pos v with h0 | h0
          · subst h0; simp at hne
          · exact h0
        have hlt : v / b < v := Nat.div_lt_self hpos (by omega)
        exact ih f2 (v / b) _ (by omega) (by omega)

theorem numeral_small (b : Nat) (up : Bool) (v : Nat) (h : v / b = 0) :
    numeral b up v = [hexDigit up (v % b)] := by
  simp [numeral, digitsAux, h]

theorem numeral_step (b : Nat) (up : Bool) (v : Nat) (hb : 2 ≤ b) (h : v / b ≠ 0) :
    numeral b up v = numeral b up (v / b) ++ [hexDigit up (v % b)] := by
  have hpos : 0 < v := by
    rcases Nat.eq_zero_or_pos v with h0 | h0
    · subst h0; simp at h
    · exact h0
  have hlt : v / b < v := Nat.div_lt_self hpos (by omega)
  unfold numeral
  rw [digitsAux, if_neg h, digitsAux_append,
    digitsAux_fuel b up hb v (v / b + 1) (v / b) [] hlt (by omega)]

theorem hexDigit_zero (up : Bool) : hexDigit up 0 = '0' := by
  cases up <;> rfl

theorem hex4 (up : Bool) (v : Nat) (hv : v < 65536) :
    pad true 4 (numeral 16 up v) =
      [hexDigit up (v / 4096), hexDigit up (v / 256 % 16), hexDigit up (v / 16 % 16),
        hexDigit up (v % 16)] := by
  by_cases h1 : v / 16 = 0
  · have e1 : v / 4096 = 0 := by omega
    have e2 : v / 256 % 16 = 0 := by omega
    have e3 : v / 16 % 16 = 0 := by omega
    rw [numeral_small 16 up v h1, e1, e2, e3, hexDigit_zero]
    rfl
  · rw [numeral_step 16 up v (by omega) h1]
    by_cases h2 : v / 16 / 16 = 0
    · have e1 : v / 4096 = 0 := by omega
      have e2 : v / 256 % 16 = 0 := by omega
      have e3 : v / 16 % 16 = v / 16 := by omega
      rw [numeral_small 16 up _ h2, e1, e2, hexDigit_zero]
      rfl
    · rw [numeral_step 16 up _ (by omega) h2]
      have e256 : v / 16 / 16 = v / 256 := by omega
      by_cases h3 : v / 16 / 16 / 16 = 0
      · have e1 : v / 4096 = 0 := by omega
        rw [numeral_small 16 up _ h3, e1, hexDigit_zero, e256]
        rfl
      · rw [numeral_step 16 up _ (by omega) h3]
        have h4 : v / 16 / 16 / 16 / 16 = 0 := by omega
        have e5 : v / 16 / 16 / 16 % 16 = v / 4096 := by omega
        rw [numeral_small 16 up _ h4, e5, e256]
        rfl
theorem parseFormat_raw_word :
    parseFormat Mode.text "%04X\n".data = [Piece.conv true 4 'X', Piece.lit '\n'] := by
  decide

/-- The statement of line 100 writes a 16-bit word as its four upper-case
hexadecimal digits and a newline. -/
theorem printf_raw_word (w : Nat) (hw : w < 65536) :
    printf ⟨"%04X\n", [w]⟩ =
      PrintfResult.ok (String.mk [hexDigit true (w / 4096), hexDigit true (w / 256 % 16),
        hexDigit true (w / 16 % 16), hexDigit true (w % 16), '\n']) := by
  unfold printf
  simp only []
  rw [parseFormat_raw_word]
  simp [render, convert, hex4 true w hw]

/-! ## Conversions write no newline -/

theorem hexDigit_ne_newline (up : Bool) (d : Nat) (hd : d < 16) : hexDigit up d ≠ '\n' := by
  interval_cases d <;> cases up <;> decide

theorem digitsAux_count (b : Nat) (up : Bool) (hb0 : 0 < b) (hb : b ≤ 16) :
    ∀ (f v : Nat) (acc : List Char),
      (digitsAux b up f v acc).count '\n' = acc.count '\n' := by
  intro f
  induction f with
  | zero => intro v acc; rfl
  | succ f ih =>
    intro v acc
    have hd : v % b < 16 := lt_of_lt_of_le (Nat.mod_lt v hb0) hb
    have hne := hexDigit_ne_newline up (v % b) hd
    simp only [digitsAux]
    split
    · exact List.count_cons_of_ne hne.symm acc
    · rw [ih, List.count_cons_of_ne hne.symm acc]

theorem numeral_count (b : Nat) (up : Bool) (hb0 : 0 < b) (hb : b ≤ 16) (v : Nat) :
    (numeral b up v).count '\n' = 0 := by
  unfold numeral
  rw [digitsAux_count b up hb0 hb]
  rfl

theorem pad_count (zero : Bool) (width : Nat) (cs : List Char) :
    (pad zero width cs).count '\n' = cs.count '\n' := by
  unfold pad
  rw [List.count_append, List.count_replicate]
  cases zero <;> simp

theorem convert_count (zero : Bool) (width : Nat) (kind : Char) (v : Nat) (cs : List Char)
    (h : convert zero width kind v = some cs) : cs.count '\n' = 0 := by
  unfold convert at h
  split_ifs at h <;> cases h
  · rw [pad_count, numeral_count 16 true (by omega) (by omega)]
  · rw [pad_count, numeral_count 16 false (by omega) (by omega)]
  · rw [pad_count, numeral_count 10 false (by omega) (by omega)]
  · rw [List.count_cons_of_ne (by decide), pad_count,
      numeral_count 10 false (by omega) (by omega)]
  · rw [pad_count, List.count_cons_of_ne (by decide),
      numeral_count 10 false (by omega) (by omega)]

/-- The newlines of a finished text are those of the literal pieces. -/
theorem render_count : ∀ (ps : List Piece) (args : List Nat) (out : List Char) (text : String),
    render ps args out = PrintfResult.ok text →
      text.data.count '\n' = out.count '\n' + ps.count (Piece.lit '\n') := by
  intro ps
  induction ps with
  | nil =>
    intro args out text h
    simp only [render] at h
    cases h
    simp
  | cons p ps ih =>
    intro args out text h
    cases p with
    | lit c =>
      simp only [render] at h
      rw [ih args (out ++ [c]) text h, List.count_append]
      by_cases hc : c = '\n'
      · subst hc
        simp
        omega
      · have hp : Piece.lit '\n' ≠ Piece.lit c := fun e => hc (Piece.lit.inj e).symm
        rw [List.count_cons_of_ne hp, List.count_cons_of_ne (Ne.symm hc)]
        simp
    | conv z w k =>
      cases args with
      | nil => simp only [render] at h; cases h
      | cons v args =>
        simp only [render] at h
        split at h
        · rename_i cs hcs
          rw [ih args (out ++ cs) text h, List.count_append, convert_count z w k v cs hcs,
            List.count_cons]
          simp
        · cases h

theorem printf_count (c : PrintfCall) (text : String) (h : printf c = PrintfResult.ok text) :
    text.data.count '\n' = (parseFormat Mode.text c.fmt.data).count (Piece.lit '\n') := by
  unfold printf at h
  rw [render_count _ _ _ _ h]
  simp

/-! ## The head of a line: lemmas -/

theorem render_prefix : ∀ (ps : List Piece) (args : List Nat) (out : List Char) (text : String),
    render ps args out = PrintfResult.ok text → out <+: text.data := by
  intro ps
  induction ps with
  | nil =>
    intro args out text h
    simp only [render] at h
    cases h
    exact List.prefix_refl _
  | cons p ps ih =>
    intro args out text h
    cases p with
    | lit c =>
      simp only [render] at h
      exact (List.prefix_append out [c]).trans (ih args _ text h)
    | conv z w k =>
      cases args with
      | nil => simp only [render] at h; cases h
      | cons v args =>
        simp only [render] at h
        split at h
        · rename_i cs _
          exact (List.prefix_append out cs).trans (ih args _ text h)
        · cases h

theorem convert_known (z : Bool) (w : Nat) (k : Char) (v : Nat)
    (hk : k = 'X' ∨ k = 'x' ∨ k = 'd') : ∃ cs, convert z w k v = some cs := by
  unfold convert
  rcases hk with hk | hk | hk <;> subst hk
  · exact ⟨_, rfl⟩
  · exact ⟨_, rfl⟩
  · rw [if_neg (by decide), if_neg (by decide), if_pos rfl]
    split
    · exact ⟨_, rfl⟩
    · split <;> exact ⟨_, rfl⟩

/-- A call with modelled conversions and enough arguments writes its text in
full. -/
theorem render_ok : ∀ (ps : List Piece) (args : List Nat) (out : List Char),
    convsKnown ps = true → convCount ps ≤ args.length →
      ∃ text, render ps args out = PrintfResult.ok text := by
  intro ps
  induction ps with
  | nil => intro args out _ _; exact ⟨_, rfl⟩
  | cons p ps ih =>
    intro args out hk hc
    cases p with
    | lit c =>
      simp only [render]
      exact ih args _ hk hc
    | conv z w k =>
      simp only [convsKnown, Bool.and_eq_true, decide_eq_true_eq] at hk
      cases args with
      | nil => simp [convCount] at hc
      | cons v args =>
        obtain ⟨cs, hcs⟩ := convert_known z w k v hk.1
        simp only [render, hcs]
        exact ih args _ hk.2 (by simpa [convCount] using hc)

theorem render_head (ps : List Piece) (args : List Nat) (a w : Nat)
    (ha : a < 65536) (hw : w < 65536) :
    render (headPieces ++ ps) (a :: w :: args) [] = render ps args (lineHead a w) := by
  simp [headPieces, render, convert, lineHead, hex4Digits, hex4 true a ha, hex4 false w hw]

/-- A statement whose format starts with the common head and which passes
`addr`, `insn` and as many further arguments as the format converts writes
its text in full, and the text starts with the head for `addr` and `insn`. -/
theorem headed_line (f : String) (k : Nat) (a w : Nat) (rest : List Nat) (c : PrintfCall)
    (hf : headedFormat f k = true) (hk : rest.length + 2 = k)
    (ha : a < 65536) (hw : w < 65536)
    (h : some (PrintfCall.mk f (a :: w :: rest)) = some c) :
    ∃ text, printf c = PrintfResult.ok text ∧ lineHead a w <+: text.data := by
  cases h
  unfold headedFormat at hf
  simp only [Bool.and_eq_true, decide_eq_true_eq] at hf
  obtain ⟨⟨hpre, hknown⟩, hcount⟩ := hf
  obtain ⟨t, ht⟩ := List.isPrefixOf_iff_prefix.mp hpre
  rw [← ht] at hknown hcount
  have hk2 : convsKnown t = true := by
    simpa [headPieces, convsKnown] using hknown
  have hc2 : convCount t ≤ rest.length := by
    simp [headPieces, convCount] at hcount
    omega
  unfold printf
  simp only []
  rw [← ht, render_head t rest a w ha hw]
  obtain ⟨text, htext⟩ := render_ok t rest (lineHead a w) hk2 hc2
  exact ⟨text, htext, render_prefix t rest _ text htext⟩

theorem numeral_register (r : Nat) (hr : r ≤ 15) :
    numeral 10 false r =
      if r < 10 then [Char.ofNat (48 + r)] else ['1', Char.ofNat (48 + (r - 10))] := by
  interval_cases r <;> rfl

theorem convert_dec (v : Nat) (hv : v < 2 ^ 31) :
    convert false 0 'd' v = some (numeral 10 false v) := by
  unfold convert
  rw [if_neg (by decide), if_neg (by decide), if_pos rfl, if_pos hv]
  simp [pad]

theorem convert_hex (zero : Bool) (width v : Nat) :
    convert zero width 'x' v = some (pad zero width (numeral 16 false v)) := by
  unfold convert
  rw [if_neg (by decide), if_pos rfl]

theorem pad_width_zero (zero : Bool) (cs : List Char) : pad zero 0 cs = cs := by
  simp [pad]

theorem x_lt (w : Nat) : x w < 2 ^ 31 := lt_of_le_of_lt Nat.and_le_right (by decide)

theorem y_lt (w : Nat) : y w < 2 ^ 31 := lt_of_le_of_lt Nat.and_le_right (by decide)

theorem n_lt (w : Nat) : n w < 2 ^ 31 := lt_of_le_of_lt Nat.and_le_right (by decide)

theorem kk_lt (w : Nat) : kk w < 2 ^ 31 := lt_of_le_of_lt Nat.and_le_right (by decide)

theorem nnn_lt (w : Nat) : nnn w < 2 ^ 31 := lt_of_le_of_lt Nat.and_le_right (by decide)

/-! ## The chain, family by family -/

theorem l_le (w : Nat) : l w ≤ 15 := Nat.and_le_right

theorem u_le (w : Nat) : u w ≤ 15 := Nat.and_le_right

theorem mainLoopBody_family0 (a w : Nat) (h : u w = 0x0) :
    mainLoopBody a w =
      some ⟨"%04X\n", [w]⟩ := by
  unfold mainLoopBody
  rw [if_pos h]

theorem mainLoopBody_family1 (a w : Nat) (h : u w = 0x1) :
    mainLoopBody a w =
      some ⟨"\t0x%04X:\t%04x\tjmp  0x%04x\n", [a, w, nnn w]⟩ := by
  unfold mainLoopBody
  repeat rw [if_neg (by omega)]
  rw [if_pos h]

theorem mainLoopBody_family2 (a w : Nat) (h : u w = 0x2) :
    mainLoopBody a w =
      some ⟨"\t0x%04X:\t%04x\tcall 0x%04x\n", [a, w, nnn w]⟩ := by
  unfold mainLoopBody
  repeat rw [if_neg (by omega)]
  rw [if_pos h]

theorem mainLoopBody_family3 (a w : Nat) (h : u w = 0x3) :
    mainLoopBody a w =
      some ⟨"\t0x%04X:\t%04x\tse   v%d, 0x%02x (%d)\n", [a, w, x w, kk w, kk w]⟩ := by
  unfold mainLoopBody
  repeat rw [if_neg (by omega)]
  rw [if_pos h]

theorem mainLoopBody_family4 (a w : Nat) (h : u w = 0x4) :
    mainLoopBody a w =
      some ⟨"\t0x%04X:\t%04x\tsne  v%d, 0x%02x (%d)\n", [a, w, x w, kk w, kk w]⟩ := by
  unfold mainLoopBody
  repeat rw [if_neg (by omega)]
  rw [if_pos h]

theorem mainLoopBody_family5 (a w : Nat) (h : u w = 0x5) :
    mainLoopBody a w =
      some ⟨"\t0x%04X:\t%04x\tse   v%d, v%d (%d)\n", [w, x w, y w]⟩ := by
  unfold mainLoopBody
  repeat rw [if_neg (by omega)]
  rw [if_pos h]

theorem mainLoopBody_family6 (a w : Nat) (h : u w = 0x6) :
    mainLoopBody a w =
      some ⟨"\t0x%04X:\t%04x\tld   v%d, 0x%02x (%d)\n", [a, w, x w, kk w, kk w]⟩ := by
  unfold mainLoopBody
  repeat rw [if_neg (by omega)]
  rw [if_pos h]

theorem mainLoopBody_family7 (a w : Nat) (h : u w = 0x7) :
    mainLoopBody a w =
      some ⟨"\t0x%04X:\t%04x\tadd  v%d, 0x%02x (%d)\n", [a, w, x w, kk w, kk w]⟩ := by
  unfold mainLoopBody
  repeat rw [if_neg (by omega)]
  rw [if_pos h]

theorem mainLoopBody_family9 (a w : Nat) (h : u w = 0x9) :
    mainLoopBody a w =
      some ⟨"\t0x%04X:\t%04x\tsne  v%d, v%d (%d)\n", [w, x w, y w]⟩ := by
  unfold mainLoopBody
  repeat rw [if_neg (by omega)]
  rw [if_pos h]

theorem mainLoopBody_familyA (a w : Nat) (h : u w = 0xA) :
    mainLoopBody a w =
      some ⟨"\t0x%04X:\t%04x\tld   I, 0x%04x (%d)\n", [a, w, nnn w, nnn w]⟩ := by
  unfold mainLoopBody
  repeat rw [if_neg (by omega)]
  rw [if_pos h]

theorem mainLoopBody_familyB (a w : Nat) (h : u w = 0xB) :
    mainLoopBody a w =
      some ⟨"\t0x%04X:\t%04x\tjp   v0, 0x%04x (%d)\n", [w, nnn w]⟩ := by
  unfold mainLoopBody
  repeat rw [if_neg (by omega)]
  rw [if_pos h]

theorem mainLoopBody_familyC (a w : Nat) (h : u w = 0xC) :
    mainLoopBody a w =
      some ⟨"\t0x%04X:\t%04x\trnd  v%d, 0x%02x (%d)\n", [a, w, x w, kk w, kk w]⟩ := by
  unfold mainLoopBody
  repeat rw [if_neg (by omega)]
  rw [if_pos h]

theorem mainLoopBody_familyD (a w : Nat) (h : u w = 0xD) :
    mainLoopBody a w =
      some ⟨"\t0x%04X:\t%04x\tdrw  v%d, v%d, 0x%x (%d)\n", [a, w, x w, y w, n w, n w]⟩ := by
  unfold mainLoopBody
  repeat rw [if_neg (by omega)]
  rw [if_pos h]

theorem mainLoopBody_family8 (a w : Nat) (h : u w = 0x8) :
    mainLoopBody a w = family8 a w := by
  unfold mainLoopBody
  repeat rw [if_neg (by omega)]
  rw [if_pos h]

theorem mainLoopBody_familyE (a w : Nat) (h : u w = 0xE) :
    mainLoopBody a w = familyE a w := by
  unfold mainLoopBody
  repeat rw [if_neg (by omega)]
  rw [if_pos h]

theorem mainLoopBody_familyF (a w : Nat) (h : u w = 0xF) :
    mainLoopBody a w = familyF a w := by
  unfold mainLoopBody
  repeat rw [if_neg (by omega)]
  rw [if_pos h]

theorem family8_l0 (a w : Nat) (h : l w = 0x0) :
    family8 a w = some ⟨"\t0x%04X:\t%04x\tld   v%d, v%d\n", [a, w, x w, y w]⟩ := by
  unfold family8
  rw [if_pos h]

theorem family8_l1 (a w : Nat) (h : l w = 0x1) :
    family8 a w = some ⟨"\t0x%04X:\t%04x\tor   v%d, v%d\n", [a, w, x w, y w]⟩ := by
  unfold family8
  repeat rw [if_neg (by omega)]
  rw [if_pos h]

theorem family8_l2 (a w : Nat) (h : l w = 0x2) :
    family8 a w = some ⟨"\t0x%04X:\t%04x\tand  v%d, v%d\n", [a, w, x w, y w]⟩ := by
  unfold family8
  repeat rw [if_neg (by omega)]
  rw [if_pos h]

theorem family8_l3 (a w : Nat) (h : l w = 0x3) :
    family8 a w = some ⟨"\t0x%04X:\t%04x\txor  v%d, v%d\n", [a, w, x w, y w]⟩ := by
  unfold family8
  repeat rw [if_neg (by omega)]
  rw [if_pos h]

theorem family8_l4 (a w : Nat) (h : l w = 0x4) :
    family8 a w = some ⟨"\t0x%04X:\t%04x\tadd  v%d, v%d\n", [a, w, x w, y w]⟩ := by
  unfold family8
  repeat rw [if_neg (by omega)]
  rw [if_pos h]

theorem family8_l5 (a w : Nat) (h : l w = 0x5) :
    family8 a w = some ⟨"\t0x%04X:\t%04x\tsub  v%d, v%d\n", [a, w, x w, y w]⟩ := by
  unfold family8
  repeat rw [if_neg (by omega)]
  rw [if_pos h]

theorem family8_l6 (a w : Nat) (h : l w = 0x6) :
    family8 a w = some ⟨"\t0x%04X:\t%04x\tshr  v%d\n", [a, w, x w]⟩ := by
  unfold family8
  repeat rw [if_neg (by omega)]
  rw [if_pos h]

theorem family8_l7 (a w : Nat) (h : l w = 0x7) :
    family8 a w = some ⟨"\t0x%04X:\t%04x\tsubn v%d, v%d\n", [a, w, x w, y w]⟩ := by
  unfold family8
  repeat rw [if_neg (by omega)]
  rw [if_pos h]

theorem family8_lE (a w : Nat) (h : l w = 0xE) :
    family8 a w = some ⟨"\t0x%04X:\t%04x\tshl  v%d\n", [a, w, x w]⟩ := by
  unfold family8
  repeat rw [if_neg (by omega)]
  rw [if_pos h]

theorem family8_none (a w : Nat) (h7 : ¬ (l w ≤ 7)) (hE : l w ≠ 0xE) :
    family8 a w = none := by
  unfold family8
  repeat rw [if_neg (by omega)]

/-- No word passes the tests of family E: `l` is at most 15. -/
theorem familyE_none (a w : Nat) : familyE a w = none := by
  have hl := l_le w
  unfold familyE
  repeat rw [if_neg (by omega)]

theorem familyF_none (a w : Nat) (h7 : l w ≠ 0x7) (hA : l w ≠ 0xA) :
    familyF a w = none := by
  have hl := l_le w
  unfold familyF
  repeat rw [if_neg (by omega)]

theorem familyF_l7 (a w : Nat) (h : l w = 0x7) :
    familyF a w = some ⟨"\t0x%04X:\t%04x\tld   v%d, DT\n", [a, w, x w]⟩ := by
  unfold familyF
  rw [if_pos h]

theorem familyF_lA (a w : Nat) (h : l w = 0xA) :
    familyF a w = some ⟨"\t0x%04X:\t%04x\tld   v%d, K\n", [a, w, x w]⟩ := by
  unfold familyF
  rw [if_neg (by omega), if_pos h]

/-! ## Families without a sub-opcode -/

/-- C1 (families 1, 2, 3, 4, 6, 7, A, C, D): when the family nibble
`(w >> 12) & 0xF` is one of these, the loop body executes the `printf`
statement of that family (`jmp` = JP, `call` = CALL, `se` = SE, `sne` = SNE,
`ld` = LD, `add` = ADD, `ld I` = LD I, `rnd` = RND, `drw` = DRW) for the
address `a` and the word `w`, and the operands it passes are the masked fields
of `w`: `w & 0xFFF` for 1, 2, A; `(w >> 8) & 0xF` and `w & 0xFF` for 3, 4, 6,
7, C; `(w >> 8) & 0xF`, `(w >> 4) & 0xF` and `w & 0xF` for D. -/
theorem C1_plain_families (a w : Nat) :
    ((w >>> 12) &&& 0xF = 0x1 → mainLoopBody a w =
      some ⟨"\t0x%04X:\t%04x\tjmp  0x%04x\n", [a, w, w &&& 0xFFF]⟩) ∧
    ((w >>> 12) &&& 0xF = 0x2 → mainLoopBody a w =
      some ⟨"\t0x%04X:\t%04x\tcall 0x%04x\n", [a, w, w &&& 0xFFF]⟩) ∧
    ((w >>> 12) &&& 0xF = 0x3 → mainLoopBody a w =
      some ⟨"\t0x%04X:\t%04x\tse   v%d, 0x%02x (%d)\n",
        [a, w, (w >>> 8) &&& 0xF, w &&& 0xFF, w &&& 0xFF]⟩) ∧
    ((w >>> 12) &&& 0xF = 0x4 → mainLoopBody a w =
      some ⟨"\t0x%04X:\t%04x\tsne  v%d, 0x%02x (%d)\n",
        [a, w, (w >>> 8) &&& 0xF, w &&& 0xFF, w &&& 0xFF]⟩) ∧
    ((w >>> 12) &&& 0xF = 0x6 → mainLoopBody a w =
      some ⟨"\t0x%04X:\t%04x\tld   v%d, 0x%02x (%d)\n",
        [a, w, (w >>> 8) &&& 0xF, w &&& 0xFF, w &&& 0xFF]⟩) ∧
    ((w >>> 12) &&& 0xF = 0x7 → mainLoopBody a w =
      some ⟨"\t0x%04X:\t%04x\tadd  v%d, 0x%02x (%d)\n",
        [a, w, (w >>> 8) &&& 0xF, w &&& 0xFF, w &&& 0xFF]⟩) ∧
    ((w >>> 12) &&& 0xF = 0xA → mainLoopBody a w =
      some ⟨"\t0x%04X:\t%04x\tld   I, 0x%04x (%d)\n",
        [a, w, w &&& 0xFFF, w &&& 0xFFF]⟩) ∧
    ((w >>> 12) &&& 0xF = 0xC → mainLoopBody a w =
      some ⟨"\t0x%04X:\t%04x\trnd  v%d, 0x%02x (%d)\n",
        [a, w, (w >>> 8) &&& 0xF, w &&& 0xFF, w &&& 0xFF]⟩) ∧
    ((w >>> 12) &&& 0xF = 0xD → mainLoopBody a w =
      some ⟨"\t0x%04X:\t%04x\tdrw  v%d, v%d, 0x%x (%d)\n",
        [a, w, (w >>> 8) &&& 0xF, (w >>> 4) &&& 0xF, w &&& 0xF, w &&& 0xF]⟩) := by
  exact ⟨mainLoopBody_family1 a w, mainLoopBody_family2 a w, mainLoopBody_family3 a w,
    mainLoopBody_family4 a w, mainLoopBody_family6 a w, mainLoopBody_family7 a w,
    mainLoopBody_familyA a w, mainLoopBody_familyC a w, mainLoopBody_familyD a w⟩

/-- C1 at the words of the spec: `0x1ABC` is a jump to `0xABC`, `0x6A3F` loads
`0x3F` into register 10, `0xD123` draws with registers 1, 2 and nibble 3. -/
theorem C1_plain_families_witness :
    mainLoopBody 0x200 0x1ABC =
      some ⟨"\t0x%04X:\t%04x\tjmp  0x%04x\n", [0x200, 0x1ABC, 0xABC]⟩ ∧
    mainLoopBody 0x200 0x6A3F =
      some ⟨"\t0x%04X:\t%04x\tld   v%d, 0x%02x (%d)\n", [0x200, 0x6A3F, 10, 0x3F, 0x3F]⟩ ∧
    mainLoopBody 0x200 0xD123 =
      some ⟨"\t0x%04X:\t%04x\tdrw  v%d, v%d, 0x%x (%d)\n", [0x200, 0xD123, 1, 2, 3, 3]⟩ ∧
    output 0x200 0x1ABC = some (PrintfResult.ok "\t0x0200:\t1abc\tjmp  0x0abc\n") ∧
    output 0x200 0x6A3F = some (PrintfResult.ok "\t0x0200:\t6a3f\tld   v10, 0x3f (63)\n") ∧
    output 0x200 0xD123 = some (PrintfResult.ok "\t0x0200:\td123\tdrw  v1, v2, 0x3 (3)\n") :=
  ⟨(C1_plain_families 0x200 0x1ABC).1 (by decide),
   (C1_plain_families 0x200 0x6A3F).2.2.2.2.1 (by decide),
   (C1_plain_families 0x200 0xD123).2.2.2.2.2.2.2.2 (by decide),
   by decide, by decide, by decide⟩

/-! ## Family 0x8 -/

/-- C2 (family 8): for a word of family 8 the low nibble `w & 0xF` selects the
statement: 0 `ld`, 1 `or`, 2 `and`, 3 `xor`, 4 `add`, 5 `sub`, 6 `shr`,
7 `subn`, 0xE `shl`; the register operands are `(w >> 8) & 0xF` and, except
for `shr` and `shl`, `(w >> 4) & 0xF`. -/
theorem C2_family8 (a w : Nat) (h8 : (w >>> 12) &&& 0xF = 0x8) :
    (w &&& 0xF = 0x0 → mainLoopBody a w =
      some ⟨"\t0x%04X:\t%04x\tld   v%d, v%d\n", [a, w, (w >>> 8) &&& 0xF, (w >>> 4) &&& 0xF]⟩) ∧
    (w &&& 0xF = 0x1 → mainLoopBody a w =
      some ⟨"\t0x%04X:\t%04x\tor   v%d, v%d\n", [a, w, (w >>> 8) &&& 0xF, (w >>> 4) &&& 0xF]⟩) ∧
    (w &&& 0xF = 0x2 → mainLoopBody a w =
      some ⟨"\t0x%04X:\t%04x\tand  v%d, v%d\n", [a, w, (w >>> 8) &&& 0xF, (w >>> 4) &&& 0xF]⟩) ∧
    (w &&& 0xF = 0x3 → mainLoopBody a w =
      some ⟨"\t0x%04X:\t%04x\txor  v%d, v%d\n", [a, w, (w >>> 8) &&& 0xF, (w >>> 4) &&& 0xF]⟩) ∧
    (w &&& 0xF = 0x4 → mainLoopBody a w =
      some ⟨"\t0x%04X:\t%04x\tadd  v%d, v%d\n", [a, w, (w >>> 8) &&& 0xF, (w >>> 4) &&& 0xF]⟩) ∧
    (w &&& 0xF = 0x5 → mainLoopBody a w =
      some ⟨"\t0x%04X:\t%04x\tsub  v%d, v%d\n", [a, w, (w >>> 8) &&& 0xF, (w >>> 4) &&& 0xF]⟩) ∧
    (w &&& 0xF = 0x6 → mainLoopBody a w =
      some ⟨"\t0x%04X:\t%04x\tshr  v%d\n", [a, w, (w >>> 8) &&& 0xF]⟩) ∧
    (w &&& 0xF = 0x7 → mainLoopBody a w =
      some ⟨"\t0x%04X:\t%04x\tsubn v%d, v%d\n", [a, w, (w >>> 8) &&& 0xF, (w >>> 4) &&& 0xF]⟩) ∧
    (w &&& 0xF = 0xE → mainLoopBody a w =
      some ⟨"\t0x%04X:\t%04x\tshl  v%d\n", [a, w, (w >>> 8) &&& 0xF]⟩) := by
  rw [mainLoopBody_family8 a w h8]
  exact ⟨family8_l0 a w, family8_l1 a w, family8_l2 a w, family8_l3 a w, family8_l4 a w,
    family8_l5 a w, family8_l6 a w, family8_l7 a w, family8_lE a w⟩

/-- C2 at the word of the spec: `0x8AB4` is `add` with registers 10 and 11. -/
theorem C2_family8_witness :
    (0x8AB4 >>> 12) &&& 0xF = 0x8 ∧ 0x8AB4 &&& 0xF = 0x4 ∧
    mainLoopBody 0x200 0x8AB4 =
      some ⟨"\t0x%04X:\t%04x\tadd  v%d, v%d\n", [0x200, 0x8AB4, 10, 11]⟩ ∧
    output 0x200 0x8AB4 = some (PrintfResult.ok "\t0x0200:\t8ab4\tadd  v10, v11\n") :=
  ⟨by decide, by decide,
   (C2_family8 0x200 0x8AB4 (by decide)).2.2.2.2.1 (by decide), by decide⟩

/-! ## Family 0x0 -/

/-- C3, as the code has it: every 16-bit word of family 0, the words `0x00E0`
and `0x00EE` included, executes the one statement `printf("%04X\n", insn)`,
which writes the word alone as four upper-case hexadecimal digits and a
newline: no address, no mnemonic, no CLS, RET or SYS. -/
theorem C3_family0_raw_word (a w : Nat) (hw : w < 65536) (h0 : (w >>> 12) &&& 0xF = 0x0) :
    mainLoopBody a w = some ⟨"%04X\n", [w]⟩ ∧
    output a w =
      some (PrintfResult.ok (String.mk [hexDigit true (w / 4096), hexDigit true (w / 256 % 16),
        hexDigit true (w / 16 % 16), hexDigit true (w % 16), '\n'])) := by
  have hm := mainLoopBody_family0 a w h0
  refine ⟨hm, ?_⟩
  unfold output
  rw [hm, Option.map_some', printf_raw_word w hw]

/-- C3 amended, at `0x00E0` read at address `0x200`. -/
theorem C3_family0_raw_word_witness :
    0x00E0 < 65536 ∧ (0x00E0 >>> 12) &&& 0xF = 0x0 ∧
    mainLoopBody 0x200 0x00E0 = some ⟨"%04X\n", [0x00E0]⟩ ∧
    output 0x200 0x00E0 = some (PrintfResult.ok "00E0\n") :=
  ⟨by decide, by decide, C3_family0_raw_word 0x200 0x00E0 (by decide) (by decide)⟩

/-- C3 fails as stated: `0x00E0` and `0x00EE` are written as the bare words
`00E0` and `00EE`, not as CLS and RET, and `0x0123` as `0123`, not as SYS. -/
theorem C3_counterexample :
    output 0x200 0x00E0 = some (PrintfResult.ok "00E0\n") ∧
    output 0x202 0x00EE = some (PrintfResult.ok "00EE\n") ∧
    output 0x204 0x0123 = some (PrintfResult.ok "0123\n") := by
  decide

/-! ## Families 0xE and 0xF: `l` is the low nibble -/

/-- C4 at `0xFA33` (and `0xF115`, `0xF165`): `l = insn & 0xF` (line 91) is 3
(5, 5), no test of lines 152-170 accepts it, and nothing is printed; `0xFA07`
and `0xFA0A`, whose selector fits in the nibble, are printed. -/
theorem C4_family_F_low_byte_lost :
    l 0xFA33 = 0x3 ∧ mainLoopBody 0x200 0xFA33 = none ∧
    mainLoopBody 0x200 0xF115 = none ∧ mainLoopBody 0x200 0xF165 = none ∧
    mainLoopBody 0x200 0xFA07 = some ⟨"\t0x%04X:\t%04x\tld   v%d, DT\n", [0x200, 0xFA07, 10]⟩ ∧
    mainLoopBody 0x200 0xFA0A = some ⟨"\t0x%04X:\t%04x\tld   v%d, K\n", [0x200, 0xFA0A, 10]⟩ := by
  decide

/-- C5 at `0xE19E` and `0xE1A1`: `l = insn & 0xF` is `0xE` and `0x1`, the tests
`l == 0x9E` and `l == 0xA1` fail, and nothing is printed. -/
theorem C5_family_E_never_printed :
    l 0xE19E = 0xE ∧ mainLoopBody 0x200 0xE19E = none ∧
    l 0xE1A1 = 0x1 ∧ mainLoopBody 0x200 0xE1A1 = none := by
  decide

/-! ## Families 0x5, 0x9 and 0xB: the statements without `addr` -/

/-- C6 at address `0x200`, words `0x5120` and `0x9120`: lines 110 and 136 pass
`insn, x, y` to a format of five conversions.  The address column receives the
word (`0x5120`, not `0x0200`), the word column receives `x` (`0001`), the
first register shown is `y` (`v2`, not `v1`), and the second register has no
argument left. -/
theorem C6_se_sne_arguments_shifted :
    mainLoopBody 0x200 0x5120 =
      some ⟨"\t0x%04X:\t%04x\tse   v%d, v%d (%d)\n", [0x5120, 1, 2]⟩ ∧
    output 0x200 0x5120 = some (PrintfResult.undefined "\t0x5120:\t0001\tse   v2, v") ∧
    mainLoopBody 0x200 0x9120 =
      some ⟨"\t0x%04X:\t%04x\tsne  v%d, v%d (%d)\n", [0x9120, 1, 2]⟩ ∧
    output 0x200 0x9120 = some (PrintfResult.undefined "\t0x9120:\t0001\tsne  v2, v") := by
  decide

/-- C7 at address `0x200`, word `0xB123`: line 140 passes `insn, nnn` to a
format of four conversions.  The address column receives the word (`0xB123`,
not `0x0200`), the word column receives `nnn` (`0123`), and the address
operand has no argument left. -/
theorem C7_jp_v0_arguments_shifted :
    mainLoopBody 0x200 0xB123 =
      some ⟨"\t0x%04X:\t%04x\tjp   v0, 0x%04x (%d)\n", [0xB123, 0x123]⟩ ∧
    output 0x200 0xB123 = some (PrintfResult.undefined "\t0xB123:\t0123\tjp   v0, 0x") := by
  decide

/-! ## Sub-opcodes the chain does not accept -/

/-- C8, as the code has it.  Nothing is printed for a word of family 8 whose
low nibble is outside 0..7 and 0xE, for a word of family E whose low byte is
neither `0x9E` nor `0xA1`, and for a word of family F whose low byte is none
of the nine listed and whose low nibble is neither 7 nor 0xA; the words of
families 5 and 9 take the `se` and `sne` statements whatever their low
nibble. -/
theorem C8_unlisted_subopcodes (a w : Nat) :
    ((w >>> 12) &&& 0xF = 0x8 → ¬ (w &&& 0xF ≤ 7) → w &&& 0xF ≠ 0xE →
      mainLoopBody a w = none) ∧
    ((w >>> 12) &&& 0xF = 0xE → w &&& 0xFF ≠ 0x9E → w &&& 0xFF ≠ 0xA1 →
      mainLoopBody a w = none) ∧
    ((w >>> 12) &&& 0xF = 0xF →
      w &&& 0xFF ∉ [0x07, 0x0A, 0x15, 0x18, 0x1E, 0x29, 0x33, 0x55, 0x65] →
      w &&& 0xF ≠ 0x7 → w &&& 0xF ≠ 0xA → mainLoopBody a w = none) ∧
    ((w >>> 12) &&& 0xF = 0x5 → (mainLoopBody a w).map PrintfCall.fmt =
      some "\t0x%04X:\t%04x\tse   v%d, v%d (%d)\n") ∧
    ((w >>> 12) &&& 0xF = 0x9 → (mainLoopBody a w).map PrintfCall.fmt =
      some "\t0x%04X:\t%04x\tsne  v%d, v%d (%d)\n") := by
  refine ⟨?_, ?_, ?_, ?_, ?_⟩
  · intro h h7 hE
    rw [mainLoopBody_family8 a w h]
    exact family8_none a w h7 hE
  · intro h _ _
    rw [mainLoopBody_familyE a w h]
    exact familyE_none a w
  · intro h _ h7 hA
    rw [mainLoopBody_familyF a w h]
    exact familyF_none a w h7 hA
  · intro h
    rw [mainLoopBody_family5 a w h]
    rfl
  · intro h
    rw [mainLoopBody_family9 a w h]
    rfl

/-- C8 amended, at `0x8008`, `0xE000`, `0xF100`, `0x5121` and `0x9121`. -/
theorem C8_unlisted_subopcodes_witness :
    mainLoopBody 0x200 0x8008 = none ∧ mainLoopBody 0x200 0xE000 = none ∧
    mainLoopBody 0x200 0xF100 = none ∧
    (mainLoopBody 0x200 0x5121).map PrintfCall.fmt =
      some "\t0x%04X:\t%04x\tse   v%d, v%d (%d)\n" ∧
    (mainLoopBody 0x200 0x9121).map PrintfCall.fmt =
      some "\t0x%04X:\t%04x\tsne  v%d, v%d (%d)\n" :=
  ⟨(C8_unlisted_subopcodes 0x200 0x8008).1 (by decide) (by decide) (by decide),
   (C8_unlisted_subopcodes 0x200 0xE000).2.1 (by decide) (by decide) (by decide),
   (C8_unlisted_subopcodes 0x200 0xF100).2.2.1 (by decide) (by decide) (by decide) (by decide),
   (C8_unlisted_subopcodes 0x200 0x5121).2.2.2.1 (by decide),
   (C8_unlisted_subopcodes 0x200 0x9121).2.2.2.2 (by decide)⟩

/-- C8 fails as stated: `0x5121` (low nibble 1) takes the `se` statement and
`0x9121` the `sne` statement; `0xF117` (low byte `0x17`) takes `ld v%d, DT`
with register 1. -/
theorem C8_counterexample :
    0x5121 &&& 0xF = 0x1 ∧
    (mainLoopBody 0x200 0x5121).map PrintfCall.fmt =
      some "\t0x%04X:\t%04x\tse   v%d, v%d (%d)\n" ∧
    (mainLoopBody 0x200 0x9121).map PrintfCall.fmt =
      some "\t0x%04X:\t%04x\tsne  v%d, v%d (%d)\n" ∧
    0xF117 &&& 0xFF = 0x17 ∧
    output 0x200 0xF117 = some (PrintfResult.ok "\t0x0200:\tf117\tld   v1, DT\n") := by
  decide

/-- C9, as the code has it: `0x85F0` has low nibble 0 and is the `ld` statement
of family 8 with registers 5 and 15, at every address; `0xE000` executes no
statement. -/
theorem C9_85F0_is_ld_E000_is_silent (a : Nat) :
    mainLoopBody a 0x85F0 =
      some ⟨"\t0x%04X:\t%04x\tld   v%d, v%d\n", [a, 0x85F0, 5, 15]⟩ ∧
    mainLoopBody a 0xE000 = none :=
  ⟨rfl, rfl⟩

/-- C9 fails as stated: at address `0x200` the word `0x85F0` is printed as
`ld   v5, v15`, a named instruction. -/
theorem C9_counterexample :
    l 0x85F0 = 0x0 ∧
    output 0x200 0x85F0 = some (PrintfResult.ok "\t0x0200:\t85f0\tld   v5, v15\n") := by
  decide

/-! ## How many statements a word executes -/

theorem fmt_one_line (f : String) (args : List Nat) (c : PrintfCall)
    (hf : f.data.count '\n' = 1 ∧ f.data.getLast? = some '\n' ∧
      (parseFormat Mode.text f.data).count (Piece.lit '\n') = 1)
    (h : some (PrintfCall.mk f args) = some c) :
    c.fmt.data.count '\n' = 1 ∧ c.fmt.data.getLast? = some '\n' ∧
      ∀ text, printf c = PrintfResult.ok text → text.data.count '\n' = 1 := by
  cases h
  exact ⟨hf.1, hf.2.1, fun text ht => (printf_count _ text ht).trans hf.2.2⟩

theorem family8_cases (w : Nat) (h : l w ≤ 7 ∨ l w = 0xE) :
    l w = 0x0 ∨ l w = 0x1 ∨ l w = 0x2 ∨ l w = 0x3 ∨ l w = 0x4 ∨ l w = 0x5 ∨ l w = 0x6 ∨
      l w = 0x7 ∨ l w = 0xE := by
  omega

theorem family8_some (a w : Nat) (h : l w ≤ 7 ∨ l w = 0xE) :
    (family8 a w).isSome = true := by
  rcases family8_cases w h with h | h | h | h | h | h | h | h | h
  · rw [family8_l0 a w h]; rfl
  · rw [family8_l1 a w h]; rfl
  · rw [family8_l2 a w h]; rfl
  · rw [family8_l3 a w h]; rfl
  · rw [family8_l4 a w h]; rfl
  · rw [family8_l5 a w h]; rfl
  · rw [family8_l6 a w h]; rfl
  · rw [family8_l7 a w h]; rfl
  · rw [family8_lE a w h]; rfl

theorem family8_one_line (a w : Nat) (c : PrintfCall) (hc : family8 a w = some c) :
    c.fmt.data.count '\n' = 1 ∧ c.fmt.data.getLast? = some '\n' ∧
      ∀ text, printf c = PrintfResult.ok text → text.data.count '\n' = 1 := by
  by_cases hl : l w ≤ 7 ∨ l w = 0xE
  · rcases family8_cases w hl with h | h | h | h | h | h | h | h | h
    · exact fmt_one_line _ _ c (by decide) ((family8_l0 a w h).symm.trans hc)
    · exact fmt_one_line _ _ c (by decide) ((family8_l1 a w h).symm.trans hc)
    · exact fmt_one_line _ _ c (by decide) ((family8_l2 a w h).symm.trans hc)
    · exact fmt_one_line _ _ c (by decide) ((family8_l3 a w h).symm.trans hc)
    · exact fmt_one_line _ _ c (by decide) ((family8_l4 a w h).symm.trans hc)
    · exact fmt_one_line _ _ c (by decide) ((family8_l5 a w h).symm.trans hc)
    · exact fmt_one_line _ _ c (by decide) ((family8_l6 a w h).symm.trans hc)
    · exact fmt_one_line _ _ c (by decide) ((family8_l7 a w h).symm.trans hc)
    · exact fmt_one_line _ _ c (by decide) ((family8_lE a w h).symm.trans hc)
  · rw [family8_none a w (fun h => hl (Or.inl h)) (fun h => hl (Or.inr h))] at hc
    cases hc

theorem familyF_one_line (a w : Nat) (c : PrintfCall) (hc : familyF a w = some c) :
    c.fmt.data.count '\n' = 1 ∧ c.fmt.data.getLast? = some '\n' ∧
      ∀ text, printf c = PrintfResult.ok text → text.data.count '\n' = 1 := by
  by_cases h7 : l w = 0x7
  · exact fmt_one_line _ _ c (by decide) ((familyF_l7 a w h7).symm.trans hc)
  · by_cases hA : l w = 0xA
    · exact fmt_one_line _ _ c (by decide) ((familyF_lA a w hA).symm.trans hc)
    · rw [familyF_none a w h7 hA] at hc
      cases hc

/-- C10, as the code has it.  For every word the chain runs to its end and
executes at most one `printf` statement (`mainLoopBody` is a total function
into `Option`); the format of that statement has one newline, its last
character, and a text it writes in full has exactly one newline: never more
than one line.  It executes one for each word of
families 0-7 and 9-D and of family 8 with low nibble 0..7 or 0xE, and none for
a word of family 8 with another low nibble: such a word gives zero lines. -/
theorem C10_at_most_one_statement (a w : Nat) :
    (∀ c, mainLoopBody a w = some c →
      c.fmt.data.count '\n' = 1 ∧ c.fmt.data.getLast? = some '\n' ∧
        ∀ text, printf c = PrintfResult.ok text → text.data.count '\n' = 1) ∧
    ((w >>> 12) &&& 0xF ≠ 0x8 → (w >>> 12) &&& 0xF ≠ 0xE → (w >>> 12) &&& 0xF ≠ 0xF →
      (mainLoopBody a w).isSome = true) ∧
    ((w >>> 12) &&& 0xF = 0x8 → (w &&& 0xF ≤ 7 ∨ w &&& 0xF = 0xE) →
      (mainLoopBody a w).isSome = true) ∧
    ((w >>> 12) &&& 0xF = 0x8 → ¬ (w &&& 0xF ≤ 7) → w &&& 0xF ≠ 0xE →
      mainLoopBody a w = none) := by
  have hu := u_le w
  refine ⟨?_, ?_, ?_, ?_⟩
  · intro c hc
    interval_cases hk : u w
    case «8» => exact family8_one_line a w c (by rw [← mainLoopBody_family8 a w hk]; exact hc)
    case «14» => rw [mainLoopBody_familyE a w hk, familyE_none] at hc; cases hc
    case «15» => exact familyF_one_line a w c (by rw [← mainLoopBody_familyF a w hk]; exact hc)
    case «0» => exact fmt_one_line _ _ c (by decide) ((mainLoopBody_family0 a w hk).symm.trans hc)
    case «1» => exact fmt_one_line _ _ c (by decide) ((mainLoopBody_family1 a w hk).symm.trans hc)
    case «2» => exact fmt_one_line _ _ c (by decide) ((mainLoopBody_family2 a w hk).symm.trans hc)
    case «3» => exact fmt_one_line _ _ c (by decide) ((mainLoopBody_family3 a w hk).symm.trans hc)
    case «4» => exact fmt_one_line _ _ c (by decide) ((mainLoopBody_family4 a w hk).symm.trans hc)
    case «5» => exact fmt_one_line _ _ c (by decide) ((mainLoopBody_family5 a w hk).symm.trans hc)
    case «6» => exact fmt_one_line _ _ c (by decide) ((mainLoopBody_family6 a w hk).symm.trans hc)
    case «7» => exact fmt_one_line _ _ c (by decide) ((mainLoopBody_family7 a w hk).symm.trans hc)
    case «9» => exact fmt_one_line _ _ c (by decide) ((mainLoopBody_family9 a w hk).symm.trans hc)
    case «10» => exact fmt_one_line _ _ c (by decide) ((mainLoopBody_familyA a w hk).symm.trans hc)
    case «11» => exact fmt_one_line _ _ c (by decide) ((mainLoopBody_familyB a w hk).symm.trans hc)
    case «12» => exact fmt_one_line _ _ c (by decide) ((mainLoopBody_familyC a w hk).symm.trans hc)
    case «13» => exact fmt_one_line _ _ c (by decide) ((mainLoopBody_familyD a w hk).symm.trans hc)
  · intro h8 hE hF
    have h8u : u w ≠ 0x8 := h8
    have hEu : u w ≠ 0xE := hE
    have hFu : u w ≠ 0xF := hF
    interval_cases hk : u w
    case «8» => exact absurd rfl h8u
    case «14» => exact absurd rfl hEu
    case «15» => exact absurd rfl hFu
    case «0» => rw [mainLoopBody_family0 a w hk]; rfl
    case «1» => rw [mainLoopBody_family1 a w hk]; rfl
    case «2» => rw [mainLoopBody_family2 a w hk]; rfl
    case «3» => rw [mainLoopBody_family3 a w hk]; rfl
    case «4» => rw [mainLoopBody_family4 a w hk]; rfl
    case «5» => rw [mainLoopBody_family5 a w hk]; rfl
    case «6» => rw [mainLoopBody_family6 a w hk]; rfl
    case «7» => rw [mainLoopBody_family7 a w hk]; rfl
    case «9» => rw [mainLoopBody_family9 a w hk]; rfl
    case «10» => rw [mainLoopBody_familyA a w hk]; rfl
    case «11» => rw [mainLoopBody_familyB a w hk]; rfl
    case «12» => rw [mainLoopBody_familyC a w hk]; rfl
    case «13» => rw [mainLoopBody_familyD a w hk]; rfl
  · intro h8 hl
    rw [mainLoopBody_family8 a w h8]
    exact family8_some a w hl
  · intro h8 h7 hE
    rw [mainLoopBody_family8 a w h8]
    exact family8_none a w h7 hE

/-- C10 amended, at `0x1ABC` (one statement), `0x8AB4` (one) and `0x8008`
(none). -/
theorem C10_at_most_one_statement_witness :
    (mainLoopBody 0x200 0x1ABC).isSome = true ∧
    (mainLoopBody 0x200 0x8AB4).isSome = true ∧
    mainLoopBody 0x200 0x8008 = none :=
  ⟨(C10_at_most_one_statement 0x200 0x1ABC).2.1 (by decide) (by decide) (by decide),
   (C10_at_most_one_statement 0x200 0x8AB4).2.2.1 (by decide) (by decide),
   (C10_at_most_one_statement 0x200 0x8008).2.2.2 (by decide) (by decide) (by decide)⟩

/-- C10 fails as stated: the word `0x8008` (family 8, low nibble 8) executes no
statement and writes nothing: zero lines. -/
theorem C10_counterexample :
    u 0x8008 = 0x8 ∧ l 0x8008 = 0x8 ∧ output 0x200 0x8008 = none := by
  decide

/-! ## Unlisted sub-opcodes write nothing -/

/-- C11, as the code has it: for a word of family 8 whose low nibble is outside
0..7 and 0xE, of family E whose low byte is neither `0x9E` nor `0xA1`, or of
family F whose low byte is none of the nine listed and whose low nibble is
neither 7 nor 0xA, the chain runs to its end without executing a `printf`
statement, and the pass writes no text at all: no raw word, no mnemonic. -/
theorem C11_unlisted_writes_nothing (a w : Nat) :
    ((w >>> 12) &&& 0xF = 0x8 → ¬ (w &&& 0xF ≤ 7) → w &&& 0xF ≠ 0xE →
      mainLoopBody a w = none ∧ output a w = none) ∧
    ((w >>> 12) &&& 0xF = 0xE → w &&& 0xFF ≠ 0x9E → w &&& 0xFF ≠ 0xA1 →
      mainLoopBody a w = none ∧ output a w = none) ∧
    ((w >>> 12) &&& 0xF = 0xF →
      w &&& 0xFF ∉ [0x07, 0x0A, 0x15, 0x18, 0x1E, 0x29, 0x33, 0x55, 0x65] →
      w &&& 0xF ≠ 0x7 → w &&& 0xF ≠ 0xA → mainLoopBody a w = none ∧ output a w = none) := by
  refine ⟨?_, ?_, ?_⟩
  · intro h h7 hE
    have hm : mainLoopBody a w = none := by
      rw [mainLoopBody_family8 a w h, family8_none a w h7 hE]
    refine ⟨hm, ?_⟩
    unfold output
    rw [hm]
    rfl
  · intro h _ _
    have hm : mainLoopBody a w = none := by
      rw [mainLoopBody_familyE a w h, familyE_none a w]
    refine ⟨hm, ?_⟩
    unfold output
    rw [hm]
    rfl
  · intro h _ h7 hA
    have hm : mainLoopBody a w = none := by
      rw [mainLoopBody_familyF a w h, familyF_none a w h7 hA]
    refine ⟨hm, ?_⟩
    unfold output
    rw [hm]
    rfl

/-- C11 amended, at `0x8ABF`, `0xE0FF` and `0xF1FF`. -/
theorem C11_unlisted_writes_nothing_witness :
    (mainLoopBody 0x200 0x8ABF = none ∧ output 0x200 0x8ABF = none) ∧
    (mainLoopBody 0x200 0xE0FF = none ∧ output 0x200 0xE0FF = none) ∧
    (mainLoopBody 0x200 0xF1FF = none ∧ output 0x200 0xF1FF = none) :=
  ⟨(C11_unlisted_writes_nothing 0x200 0x8ABF).1 (by decide) (by decide) (by decide),
   (C11_unlisted_writes_nothing 0x200 0xE0FF).2.1 (by decide) (by decide) (by decide),
   (C11_unlisted_writes_nothing 0x200 0xF1FF).2.2 (by decide) (by decide) (by decide)
     (by decide)⟩

/-- C11 fails as stated: for `0x8ABF` (family 8, low nibble 0xF) the pass
writes nothing, not the text `8ABF`; the raw word alone is what family 0 gets
(`0x0ABF` is written as `0ABF`). -/
theorem C11_counterexample :
    u 0x8ABF = 0x8 ∧ l 0x8ABF = 0xF ∧ output 0x200 0x8ABF = none ∧
    output 0x200 0x8ABF ≠ some (PrintfResult.ok "8ABF\n") ∧
    output 0x200 0x0ABF = some (PrintfResult.ok "0ABF\n") := by
  decide

/-! ## Bounds of the fields -/

/-- C12: for every word `w` the fields are the masked bits of `w`, hence
`x`, `y`, `n` and the family `u` are at most 15, `kk` at most 255 and `nnn` at
most 4095. -/
theorem C12_field_bounds (w : Nat) :
    (x w = (w >>> 8) &&& 0xF ∧ x w = w / 256 % 16 ∧ x w ≤ 15) ∧
    (y w = (w >>> 4) &&& 0xF ∧ y w = w / 16 % 16 ∧ y w ≤ 15) ∧
    (n w = w &&& 0xF ∧ n w = w % 16 ∧ n w ≤ 15) ∧
    (kk w = w &&& 0xFF ∧ kk w = w % 256 ∧ kk w ≤ 255) ∧
    (nnn w = w &&& 0xFFF ∧ nnn w = w % 4096 ∧ nnn w ≤ 4095) ∧
    (u w = (w >>> 12) &&& 0xF ∧ u w = w / 4096 % 16 ∧ u w ≤ 15) := by
  refine ⟨⟨rfl, ?_, Nat.and_le_right⟩, ⟨rfl, ?_, Nat.and_le_right⟩,
    ⟨rfl, Nat.and_pow_two_sub_one_eq_mod _ 4, Nat.and_le_right⟩,
    ⟨rfl, Nat.and_pow_two_sub_one_eq_mod _ 8, Nat.and_le_right⟩,
    ⟨rfl, Nat.and_pow_two_sub_one_eq_mod _ 12, Nat.and_le_right⟩,
    ⟨rfl, ?_, Nat.and_le_right⟩⟩
  · unfold x
    rw [Nat.shiftRight_eq_div_pow]
    exact Nat.and_pow_two_sub_one_eq_mod _ 4
  · unfold y
    rw [Nat.shiftRight_eq_div_pow]
    exact Nat.and_pow_two_sub_one_eq_mod _ 4
  · unfold u
    rw [Nat.shiftRight_eq_div_pow]
    exact Nat.and_pow_two_sub_one_eq_mod _ 4

/-! ## The word read at an address -/

theorem readInsn_unsigned (hi lo : Nat) (hh : hi < 256) (hl : lo < 256) :
    readInsn false hi lo = hi * 256 + lo := by
  unfold readInsn charValue
  simp
  omega
theorem readInsn_signed (hi lo : Nat) (hh : hi < 256) (hl : lo < 256) :
    readInsn true hi lo = if lo < 128 then hi * 256 + lo else (hi * 256 + lo + 65280) % 65536 := by
  unfold readInsn charValue
  by_cases h2 : lo < 128
  · rw [if_pos h2]
    by_cases h1 : 128 ≤ hi <;> simp [h1, Nat.not_le.mpr h2] <;> omega
  · rw [if_neg h2]
    by_cases h1 : 128 ≤ hi <;> simp [h1, Nat.le_of_not_lt h2] <;> omega

/-- C15 at the bytes `0x12`, `0xFF`: where `char` is signed the second byte is
the `int` -1 and line 88 gives `0x12 * 0x100 - 1 = 0x11FF`, not the big-endian
word `0x12FF`; the bytes `0xFF`, `0x80` give `0xFE80`.  A high byte of 128 or
more with a low byte below 128 is read correctly (`0x80`, `0x12`), and so is
every pair where `char` is unsigned. -/
theorem C15_low_byte_sign_extended :
    readInsn true 0x12 0xFF = 0x11FF ∧ 0x12 * 256 + 0xFF = 0x12FF ∧
    readInsn true 0xFF 0x80 = 0xFE80 ∧
    readInsn true 0x80 0x12 = 0x8012 ∧
    readInsn false 0x12 0xFF = 0x12FF := by
  decide

/-! ## The SYS instruction value -/

theorem Insn_SYS_addr (w : Nat) : (Insn_SYS.ctor w).addr = w % 256 := by
  show ((w % 2 ^ 8) &&& 0x0FFF) % 2 ^ 8 = w % 256
  have h : (w % 2 ^ 8) &&& 0x0FFF = w % 2 ^ 8 % 4096 := Nat.and_pow_two_sub_one_eq_mod _ 12
  rw [h]
  omega

/-- C19 at `0x0123`: the constructor takes a `uint8_t` and stores `addr` in a
`uint8_t`, so the value built from `0x0123` has `opcode = 0x23` and
`addr = 0x23`, not the 12-bit address `0x123`. -/
theorem C19_sys_addr_is_low_byte :
    (Insn_SYS.ctor 0x0123).addr = 0x23 ∧ (Insn_SYS.ctor 0x0123).opcode = 0x23 ∧
    0x0123 &&& 0xFFF = 0x123 := by
  decide

/-! ## The loader and the driver -/

theorem ctor_ok (env : LoadEnv) (r : Chip8Rom) (h : Chip8Rom.ctor env = Except.ok r) :
    r.size = allocSize env.tellg ∧ r.rom_size = env.tellg := by
  unfold Chip8Rom.ctor at h
  split at h
  · cases h
  · split at h
    · cases h
    · split at h
      · cases h
      · cases h
        exact ⟨rfl, rfl⟩

theorem main_error (e : String) :
    main 2 (Except.error e) = ([e], LoopEntry.entered none) := rfl

theorem main_ok (r : Chip8Rom) :
    main 2 (Except.ok r) = ([], LoopEntry.entered (some r)) := rfl

theorem loopAddrs_eq : loopAddrs = (List.range 120).map (fun i => 0x200 + 2 * i) := by
  decide

theorem mem_loopAddrs (a : Nat) (h : a ∈ loopAddrs) : 0x200 ≤ a ∧ a ≤ 0x2EE := by
  rw [loopAddrs_eq] at h
  simp only [List.mem_map, List.mem_range] at h
  obtain ⟨i, hi, rfl⟩ := h
  omega

theorem mainLoop_eq (charSigned : Bool) (r : Chip8Rom) :
    mainLoop charSigned r =
      [(0x200, output 0x200 (readInsn charSigned (r.rom 0x200) (r.rom 0x201)))] := rfl

theorem mainLoop_addrs (charSigned : Bool) (r : Chip8Rom) :
    (mainLoop charSigned r).map Prod.fst = [0x200] := by
  rw [mainLoop_eq]
  simp only [List.map_cons, List.map_nil]

theorem first_addr_prefix : [0x200] <+: loopAddrs :=
  ⟨(List.range 119).map (fun i => 0x202 + 2 * i), by decide⟩

/-- C16, as the code has it: the passes the loop makes do not depend on the
length of the ROM.  The loop header ranges over the 120 addresses
`0x200 + 2 * i`; the addresses of the passes made are an initial segment of
these, the same for every loaded ROM, and its first address is `0x200`; each
pass decodes the word read from the block at its address and the next
offset, whatever `rom_size` is. -/
theorem C16_passes_independent_of_length (charSigned : Bool) (env : LoadEnv) (r : Chip8Rom)
    (h : Chip8Rom.ctor env = Except.ok r) :
    listing charSigned 2 env = some ((mainLoop charSigned r).map Prod.snd) ∧
    loopAddrs = (List.range 120).map (fun i => 0x200 + 2 * i) ∧
    (mainLoop charSigned r).map Prod.fst <+: loopAddrs ∧
    ((mainLoop charSigned r).map Prod.fst).head? = some 0x200 ∧
    (∀ (env2 : LoadEnv) (r2 : Chip8Rom), Chip8Rom.ctor env2 = Except.ok r2 →
      (mainLoop charSigned r2).map Prod.fst = (mainLoop charSigned r).map Prod.fst) ∧
    (∀ p, p ∈ mainLoop charSigned r →
      p.2 = output p.1 (readInsn charSigned (r.rom p.1) (r.rom (p.1 + 1)))) := by
  refine ⟨?_, loopAddrs_eq, ?_, ?_, ?_, ?_⟩
  · unfold listing
    rw [h, main_ok]
  · rw [mainLoop_addrs]
    exact first_addr_prefix
  · rw [mainLoop_addrs]
    rfl
  · intro env2 r2 _
    rw [mainLoop_addrs, mainLoop_addrs]
  · intro p hp
    rw [mainLoop_eq] at hp
    rw [List.mem_singleton] at hp
    subst hp
    rfl

/-- C16 amended, at the 2-byte ROM `12 00` and the 4-byte ROM `12 00 12 02`:
the same addresses are decoded for both. -/
theorem C16_passes_independent_of_length_witness :
    (mainLoop true ⟨4096, fun o => if 512 ≤ o ∧ o < 512 + 4 then
        [0x12, 0x00, 0x12, 0x02].getD (o - 512) 0 else 0, 4⟩).map Prod.fst =
      (mainLoop true ⟨4096, fun o => if 512 ≤ o ∧ o < 512 + 2 then
        [0x12, 0x00].getD (o - 512) 0 else 0, 2⟩).map Prod.fst :=
  (C16_passes_independent_of_length true romJP200 ⟨4096, fun o =>
    if 512 ≤ o ∧ o < 512 + 2 then [0x12, 0x00].getD (o - 512) 0 else 0, 2⟩ rfl).2.2.2.2.1
    rom4 ⟨4096, fun o =>
      if 512 ≤ o ∧ o < 512 + 4 then [0x12, 0x00, 0x12, 0x02].getD (o - 512) 0 else 0, 4⟩ rfl

/-- C16 fails as stated: the 4-byte ROM `12 00 12 02` holds two complete words
(`4 / 2 = 2`), and its listing is the one line of the word at `0x200`; the
word `0x1202` at `0x202` is not decoded. -/
theorem C16_counterexample :
    rom4.tellg / 2 = 2 ∧
    listing true 2 rom4 =
      some [some (PrintfResult.ok "\t0x0200:\t1200\tjmp  0x0200\n")] := by
  decide

/-- C17 at a file that does not open, at a null `malloc` and at a failed read:
the constructor throws, the `catch` block writes the message, and control
reaches the loop of line 86 with the pointer `rom` never assigned. -/
theorem C17_loop_entered_after_load_failure :
    main 2 (Chip8Rom.ctor ⟨false, 0, fun _ => none, [], false⟩) =
      (["[ERROR] could not open rom image."], LoopEntry.entered none) ∧
    main 2 (Chip8Rom.ctor ⟨true, 2, fun _ => none, [0x12, 0x00], false⟩) =
      (["[ERROR] allocating memory"], LoopEntry.entered none) ∧
    main 2 (Chip8Rom.ctor ⟨true, 2, fun _ => some (fun _ => 0), [0x12, 0x00], true⟩) =
      (["[ERROR] reading from file"], LoopEntry.entered none) :=
  ⟨rfl, rfl, rfl⟩

/-- C18: for a file size `s` (a stream offset, below `2 ^ 63`) the block the
constructor allocates has `4096` bytes when `s < 0xE00` and `0x200 + s`
otherwise, and every offset the program touches is below that size: the
offsets `0x200 .. 0x200 + s - 1` the read writes, and the offsets `addr` and
`addr + 1`, within `0x200 .. 0x2EF`, the 120 passes read. -/
theorem C18_buffer_large_enough (env : LoadEnv) (r : Chip8Rom) (hs : env.tellg < 2 ^ 63)
    (h : Chip8Rom.ctor env = Except.ok r) :
    r.rom_size = env.tellg ∧
    r.size = (if env.tellg < 0xE00 then 4096 else 0x200 + env.tellg) ∧
    (∀ o, 0x200 ≤ o → o < 0x200 + r.rom_size → o < r.size) ∧
    (∀ a, a ∈ loopAddrs → 0x200 ≤ a ∧ a + 1 ≤ 0x2EF ∧ a < r.size ∧ a + 1 < r.size) := by
  obtain ⟨hsize, hrom⟩ := ctor_ok env r h
  have hs2 : r.size = (if env.tellg < 0xE00 then 4096 else 0x200 + env.tellg) := by
    rw [hsize]
    unfold allocSize
    split
    · rfl
    · omega
  refine ⟨hrom, hs2, ?_, ?_⟩
  · intro o _ ho
    rw [hs2, hrom] at *
    split <;> omega
  · intro a ha
    have hb := mem_loopAddrs a ha
    rw [hs2]
    split <;> omega

/-- C18 at the 2-byte ROM `12 00`, loaded into a block of 4096 bytes. -/
theorem C18_buffer_large_enough_witness :
    (2 : Nat) < 2 ^ 63 ∧
    (∀ o, 0x200 ≤ o → o < 0x200 + 2 → o < 4096) ∧
    (∀ a, a ∈ loopAddrs → 0x200 ≤ a ∧ a + 1 ≤ 0x2EF ∧ a < 4096 ∧ a + 1 < 4096) :=
  ⟨by decide,
   (C18_buffer_large_enough romJP200 ⟨4096, fun o =>
      if 512 ≤ o ∧ o < 512 + 2 then [0x12, 0x00].getD (o - 512) 0 else 0, 2⟩
      (by decide) rfl).2.2.1,
   (C18_buffer_large_enough romJP200 ⟨4096, fun o =>
      if 512 ≤ o ∧ o < 512 + 2 then [0x12, 0x00].getD (o - 512) 0 else 0, 2⟩
      (by decide) rfl).2.2.2⟩

/-! ## The shape of a line -/

theorem family8_headed (a w : Nat) (ha : a < 65536) (hw : w < 65536) (c : PrintfCall)
    (hc : family8 a w = some c) :
    ∃ text, printf c = PrintfResult.ok text ∧ lineHead a w <+: text.data := by
  by_cases hl : l w ≤ 7 ∨ l w = 0xE
  · rcases family8_cases w hl with h | h | h | h | h | h | h | h | h
    · exact headed_line _ 4 a w _ c (by decide) (by rfl) ha hw ((family8_l0 a w h).symm.trans hc)
    · exact headed_line _ 4 a w _ c (by decide) (by rfl) ha hw ((family8_l1 a w h).symm.trans hc)
    · exact headed_line _ 4 a w _ c (by decide) (by rfl) ha hw ((family8_l2 a w h).symm.trans hc)
    · exact headed_line _ 4 a w _ c (by decide) (by rfl) ha hw ((family8_l3 a w h).symm.trans hc)
    · exact headed_line _ 4 a w _ c (by decide) (by rfl) ha hw ((family8_l4 a w h).symm.trans hc)
    · exact headed_line _ 4 a w _ c (by decide) (by rfl) ha hw ((family8_l5 a w h).symm.trans hc)
    · exact headed_line _ 3 a w _ c (by decide) (by rfl) ha hw ((family8_l6 a w h).symm.trans hc)
    · exact headed_line _ 4 a w _ c (by decide) (by rfl) ha hw ((family8_l7 a w h).symm.trans hc)
    · exact headed_line _ 3 a w _ c (by decide) (by rfl) ha hw ((family8_lE a w h).symm.trans hc)
  · rw [family8_none a w (fun h => hl (Or.inl h)) (fun h => hl (Or.inr h))] at hc
    cases hc

theorem familyF_headed (a w : Nat) (ha : a < 65536) (hw : w < 65536) (c : PrintfCall)
    (hc : familyF a w = some c) :
    ∃ text, printf c = PrintfResult.ok text ∧ lineHead a w <+: text.data := by
  by_cases h7 : l w = 0x7
  · exact headed_line _ 3 a w _ c (by decide) (by rfl) ha hw ((familyF_l7 a w h7).symm.trans hc)
  · by_cases hA : l w = 0xA
    · exact headed_line _ 3 a w _ c (by decide) (by rfl) ha hw
        ((familyF_lA a w hA).symm.trans hc)
    · rw [familyF_none a w h7 hA] at hc
      cases hc

theorem printf_jmp (a w t : Nat) (ha : a < 65536) (hw : w < 65536) :
    printf ⟨"\t0x%04X:\t%04x\tjmp  0x%04x\n", [a, w, t]⟩ =
      PrintfResult.ok (String.mk (lineHead a w ++ ['j', 'm', 'p', ' ', ' ', '0', 'x'] ++
        pad true 4 (numeral 16 false t) ++ ['\n'])) := by
  unfold printf
  simp only []
  have hp : parseFormat Mode.text "\t0x%04X:\t%04x\tjmp  0x%04x\n".data =
      headPieces ++ [Piece.lit 'j', Piece.lit 'm', Piece.lit 'p', Piece.lit ' ', Piece.lit ' ',
        Piece.lit '0', Piece.lit 'x', Piece.conv true 4 'x', Piece.lit '\n'] := by
    decide
  rw [hp, render_head _ _ a w ha hw]
  simp [render, convert_hex, pad_width_zero]

theorem printf_call (a w t : Nat) (ha : a < 65536) (hw : w < 65536) :
    printf ⟨"\t0x%04X:\t%04x\tcall 0x%04x\n", [a, w, t]⟩ =
      PrintfResult.ok (String.mk (lineHead a w ++ ['c', 'a', 'l', 'l', ' ', '0', 'x'] ++
        pad true 4 (numeral 16 false t) ++ ['\n'])) := by
  unfold printf
  simp only []
  have hp : parseFormat Mode.text "\t0x%04X:\t%04x\tcall 0x%04x\n".data =
      headPieces ++ [Piece.lit 'c', Piece.lit 'a', Piece.lit 'l', Piece.lit 'l', Piece.lit ' ',
        Piece.lit '0', Piece.lit 'x', Piece.conv true 4 'x', Piece.lit '\n'] := by
    decide
  rw [hp, render_head _ _ a w ha hw]
  simp [render, convert_hex, pad_width_zero]

theorem printf_se_imm (a w r k : Nat) (ha : a < 65536) (hw : w < 65536)
    (hr : r < 2 ^ 31) (hk : k < 2 ^ 31) :
    printf ⟨"\t0x%04X:\t%04x\tse   v%d, 0x%02x (%d)\n", [a, w, r, k, k]⟩ =
      PrintfResult.ok (String.mk (lineHead a w ++ ['s', 'e', ' ', ' ', ' ', 'v'] ++
        numeral 10 false r ++ [',', ' ', '0', 'x'] ++ pad true 2 (numeral 16 false k) ++
        [' ', '('] ++ numeral 10 false k ++ [')', '\n'])) := by
  unfold printf
  simp only []
  have hp : parseFormat Mode.text "\t0x%04X:\t%04x\tse   v%d, 0x%02x (%d)\n".data =
      headPieces ++ [Piece.lit 's', Piece.lit 'e', Piece.lit ' ', Piece.lit ' ', Piece.lit ' ',
        Piece.lit 'v', Piece.conv false 0 'd', Piece.lit ',', Piece.lit ' ', Piece.lit '0',
        Piece.lit 'x', Piece.conv true 2 'x', Piece.lit ' ', Piece.lit '(',
        Piece.conv false 0 'd', Piece.lit ')', Piece.lit '\n'] := by
    decide
  rw [hp, render_head _ _ a w ha hw]
  simp [render, convert_dec r hr, convert_dec k hk, convert_hex, pad_width_zero]

theorem printf_sne_imm (a w r k : Nat) (ha : a < 65536) (hw : w < 65536)
    (hr : r < 2 ^ 31) (hk : k < 2 ^ 31) :
    printf ⟨"\t0x%04X:\t%04x\tsne  v%d, 0x%02x (%d)\n", [a, w, r, k, k]⟩ =
      PrintfResult.ok (String.mk (lineHead a w ++ ['s', 'n', 'e', ' ', ' ', 'v'] ++
        numeral 10 false r ++ [',', ' ', '0', 'x'] ++ pad true 2 (numeral 16 false k) ++
        [' ', '('] ++ numeral 10 false k ++ [')', '\n'])) := by
  unfold printf
  simp only []
  have hp : parseFormat Mode.text "\t0x%04X:\t%04x\tsne  v%d, 0x%02x (%d)\n".data =
      headPieces ++ [Piece.lit 's', Piece.lit 'n', Piece.lit 'e', Piece.lit ' ', Piece.lit ' ',
        Piece.lit 'v', Piece.conv false 0 'd', Piece.lit ',', Piece.lit ' ', Piece.lit '0',
        Piece.lit 'x', Piece.conv true 2 'x', Piece.lit ' ', Piece.lit '(',
        Piece.conv false 0 'd', Piece.lit ')', Piece.lit '\n'] := by
    decide
  rw [hp, render_head _ _ a w ha hw]
  simp [render, convert_dec r hr, convert_dec k hk, convert_hex, pad_width_zero]

theorem printf_ld_imm (a w r k : Nat) (ha : a < 65536) (hw : w < 65536)
    (hr : r < 2 ^ 31) (hk : k < 2 ^ 31) :
    printf ⟨"\t0x%04X:\t%04x\tld   v%d, 0x%02x (%d)\n", [a, w, r, k, k]⟩ =
      PrintfResult.ok (String.mk (lineHead a w ++ ['l', 'd', ' ', ' ', ' ', 'v'] ++
        numeral 10 false r ++ [',', ' ', '0', 'x'] ++ pad true 2 (numeral 16 false k) ++
        [' ', '('] ++ numeral 10 false k ++ [')', '\n'])) := by
  unfold printf
  simp only []
  have hp : parseFormat Mode.text "\t0x%04X:\t%04x\tld   v%d, 0x%02x (%d)\n".data =
      headPieces ++ [Piece.lit 'l', Piece.lit 'd', Piece.lit ' ', Piece.lit ' ', Piece.lit ' ',
        Piece.lit 'v', Piece.conv false 0 'd', Piece.lit ',', Piece.lit ' ', Piece.lit '0',
        Piece.lit 'x', Piece.conv true 2 'x', Piece.lit ' ', Piece.lit '(',
        Piece.conv false 0 'd', Piece.lit ')', Piece.lit '\n'] := by
    decide
  rw [hp, render_head _ _ a w ha hw]
  simp [render, convert_dec r hr, convert_dec k hk, convert_hex, pad_width_zero]

theorem printf_add_imm (a w r k : Nat) (ha : a < 65536) (hw : w < 65536)
    (hr : r < 2 ^ 31) (hk : k < 2 ^ 31) :
    printf ⟨"\t0x%04X:\t%04x\tadd  v%d, 0x%02x (%d)\n", [a, w, r, k, k]⟩ =
      PrintfResult.ok (String.mk (lineHead a w ++ ['a', 'd', 'd', ' ', ' ', 'v'] ++
        numeral 10 false r ++ [',', ' ', '0', 'x'] ++ pad true 2 (numeral 16 false k) ++
        [' ', '('] ++ numeral 10 false k ++ [')', '\n'])) := by
  unfold printf
  simp only []
  have hp : parseFormat Mode.text "\t0x%04X:\t%04x\tadd  v%d, 0x%02x (%d)\n".data =
      headPieces ++ [Piece.lit 'a', Piece.lit 'd', Piece.lit 'd', Piece.lit ' ', Piece.lit ' ',
        Piece.lit 'v', Piece.conv false 0 'd', Piece.lit ',', Piece.lit ' ', Piece.lit '0',
        Piece.lit 'x', Piece.conv true 2 'x', Piece.lit ' ', Piece.lit '(',
        Piece.conv false 0 'd', Piece.lit ')', Piece.lit '\n'] := by
    decide
  rw [hp, render_head _ _ a w ha hw]
  simp [render, convert_dec r hr, convert_dec k hk, convert_hex, pad_width_zero]

theorem printf_ld_I (a w t : Nat) (ha : a < 65536) (hw : w < 65536)
    (ht : t < 2 ^ 31) :
    printf ⟨"\t0x%04X:\t%04x\tld   I, 0x%04x (%d)\n", [a, w, t, t]⟩ =
      PrintfResult.ok (String.mk (lineHead a w ++ 
        ['l', 'd', ' ', ' ', ' ', 'I', ',', ' ', '0', 'x'] ++ pad true 4 (numeral 16 false t) ++
        [' ', '('] ++ numeral 10 false t ++ [')', '\n'])) := by
  unfold printf
  simp only []
  have hp : parseFormat Mode.text "\t0x%04X:\t%04x\tld   I, 0x%04x (%d)\n".data =
      headPieces ++ [Piece.lit 'l', Piece.lit 'd', Piece.lit ' ', Piece.lit ' ', Piece.lit ' ',
        Piece.lit 'I', Piece.lit ',', Piece.lit ' ', Piece.lit '0', Piece.lit 'x',
        Piece.conv true 4 'x', Piece.lit ' ', Piece.lit '(', Piece.conv false 0 'd',
        Piece.lit ')', Piece.lit '\n'] := by
    decide
  rw [hp, render_head _ _ a w ha hw]
  simp [render, convert_dec t ht, convert_hex, pad_width_zero]

theorem printf_rnd (a w r k : Nat) (ha : a < 65536) (hw : w < 65536)
    (hr : r < 2 ^ 31) (hk : k < 2 ^ 31) :
    printf ⟨"\t0x%04X:\t%04x\trnd  v%d, 0x%02x (%d)\n", [a, w, r, k, k]⟩ =
      PrintfResult.ok (String.mk (lineHead a w ++ ['r', 'n', 'd', ' ', ' ', 'v'] ++
        numeral 10 false r ++ [',', ' ', '0', 'x'] ++ pad true 2 (numeral 16 false k) ++
        [' ', '('] ++ numeral 10 false k ++ [')', '\n'])) := by
  unfold printf
  simp only []
  have hp : parseFormat Mode.text "\t0x%04X:\t%04x\trnd  v%d, 0x%02x (%d)\n".data =
      headPieces ++ [Piece.lit 'r', Piece.lit 'n', Piece.lit 'd', Piece.lit ' ', Piece.lit ' ',
        Piece.lit 'v', Piece.conv false 0 'd', Piece.lit ',', Piece.lit ' ', Piece.lit '0',
        Piece.lit 'x', Piece.conv true 2 'x', Piece.lit ' ', Piece.lit '(',
        Piece.conv false 0 'd', Piece.lit ')', Piece.lit '\n'] := by
    decide
  rw [hp, render_head _ _ a w ha hw]
  simp [render, convert_dec r hr, convert_dec k hk, convert_hex, pad_width_zero]

theorem printf_drw (a w r q m : Nat) (ha : a < 65536) (hw : w < 65536)
    (hr : r < 2 ^ 31) (hq : q < 2 ^ 31) (hm : m < 2 ^ 31) :
    printf ⟨"\t0x%04X:\t%04x\tdrw  v%d, v%d, 0x%x (%d)\n", [a, w, r, q, m, m]⟩ =
      PrintfResult.ok (String.mk (lineHead a w ++ ['d', 'r', 'w', ' ', ' ', 'v'] ++
        numeral 10 false r ++ [',', ' ', 'v'] ++ numeral 10 false q ++ [',', ' ', '0', 'x'] ++
        numeral 16 false m ++ [' ', '('] ++ numeral 10 false m ++ [')', '\n'])) := by
  unfold printf
  simp only []
  have hp : parseFormat Mode.text "\t0x%04X:\t%04x\tdrw  v%d, v%d, 0x%x (%d)\n".data =
      headPieces ++ [Piece.lit 'd', Piece.lit 'r', Piece.lit 'w', Piece.lit ' ', Piece.lit ' ',
        Piece.lit 'v', Piece.conv false 0 'd', Piece.lit ',', Piece.lit ' ', Piece.lit 'v',
        Piece.conv false 0 'd', Piece.lit ',', Piece.lit ' ', Piece.lit '0', Piece.lit 'x',
        Piece.conv false 0 'x', Piece.lit ' ', Piece.lit '(', Piece.conv false 0 'd',
        Piece.lit ')', Piece.lit '\n'] := by
    decide
  rw [hp, render_head _ _ a w ha hw]
  simp [render, convert_dec r hr, convert_dec q hq, convert_dec m hm, convert_hex, pad_width_zero]

theorem printf_ld_reg (a w r q : Nat) (ha : a < 65536) (hw : w < 65536)
    (hr : r < 2 ^ 31) (hq : q < 2 ^ 31) :
    printf ⟨"\t0x%04X:\t%04x\tld   v%d, v%d\n", [a, w, r, q]⟩ =
      PrintfResult.ok (String.mk (lineHead a w ++ ['l', 'd', ' ', ' ', ' ', 'v'] ++
        numeral 10 false r ++ [',', ' ', 'v'] ++ numeral 10 false q ++ ['\n'])) := by
  unfold printf
  simp only []
  have hp : parseFormat Mode.text "\t0x%04X:\t%04x\tld   v%d, v%d\n".data =
      headPieces ++ [Piece.lit 'l', Piece.lit 'd', Piece.lit ' ', Piece.lit ' ', Piece.lit ' ',
        Piece.lit 'v', Piece.conv false 0 'd', Piece.lit ',', Piece.lit ' ', Piece.lit 'v',
        Piece.conv false 0 'd', Piece.lit '\n'] := by
    decide
  rw [hp, render_head _ _ a w ha hw]
  simp [render, convert_dec r hr, convert_dec q hq, convert_hex, pad_width_zero]

theorem printf_or_reg (a w r q : Nat) (ha : a < 65536) (hw : w < 65536)
    (hr : r < 2 ^ 31) (hq : q < 2 ^ 31) :
    printf ⟨"\t0x%04X:\t%04x\tor   v%d, v%d\n", [a, w, r, q]⟩ =
      PrintfResult.ok (String.mk (lineHead a w ++ ['o', 'r', ' ', ' ', ' ', 'v'] ++
        numeral 10 false r ++ [',', ' ', 'v'] ++ numeral 10 false q ++ ['\n'])) := by
  unfold printf
  simp only []
  have hp : parseFormat Mode.text "\t0x%04X:\t%04x\tor   v%d, v%d\n".data =
      headPieces ++ [Piece.lit 'o', Piece.lit 'r', Piece.lit ' ', Piece.lit ' ', Piece.lit ' ',
        Piece.lit 'v', Piece.conv false 0 'd', Piece.lit ',', Piece.lit ' ', Piece.lit 'v',
        Piece.conv false 0 'd', Piece.lit '\n'] := by
    decide
  rw [hp, render_head _ _ a w ha hw]
  simp [render, convert_dec r hr, convert_dec q hq, convert_hex, pad_width_zero]

theorem printf_and_reg (a w r q : Nat) (ha : a < 65536) (hw : w < 65536)
    (hr : r < 2 ^ 31) (hq : q < 2 ^ 31) :
    printf ⟨"\t0x%04X:\t%04x\tand  v%d, v%d\n", [a, w, r, q]⟩ =
      PrintfResult.ok (String.mk (lineHead a w ++ ['a', 'n', 'd', ' ', ' ', 'v'] ++
        numeral 10 false r ++ [',', ' ', 'v'] ++ numeral 10 false q ++ ['\n'])) := by
  unfold printf
  simp only []
  have hp : parseFormat Mode.text "\t0x%04X:\t%04x\tand  v%d, v%d\n".data =
      headPieces ++ [Piece.lit 'a', Piece.lit 'n', Piece.lit 'd', Piece.lit ' ', Piece.lit ' ',
        Piece.lit 'v', Piece.conv false 0 'd', Piece.lit ',', Piece.lit ' ', Piece.lit 'v',
        Piece.conv false 0 'd', Piece.lit '\n'] := by
    decide
  rw [hp, render_head _ _ a w ha hw]
  simp [render, convert_dec r hr, convert_dec q hq, convert_hex, pad_width_zero]

theorem printf_xor_reg (a w r q : Nat) (ha : a < 65536) (hw : w < 65536)
    (hr : r < 2 ^ 31) (hq : q < 2 ^ 31) :
    printf ⟨"\t0x%04X:\t%04x\txor  v%d, v%d\n", [a, w, r, q]⟩ =
      PrintfResult.ok (String.mk (lineHead a w ++ ['x', 'o', 'r', ' ', ' ', 'v'] ++
        numeral 10 false r ++ [',', ' ', 'v'] ++ numeral 10 false q ++ ['\n'])) := by
  unfold printf
  simp only []
  have hp : parseFormat Mode.text "\t0x%04X:\t%04x\txor  v%d, v%d\n".data =
      headPieces ++ [Piece.lit 'x', Piece.lit 'o', Piece.lit 'r', Piece.lit ' ', Piece.lit ' ',
        Piece.lit 'v', Piece.conv false 0 'd', Piece.lit ',', Piece.lit ' ', Piece.lit 'v',
        Piece.conv false 0 'd', Piece.lit '\n'] := by
    decide
  rw [hp, render_head _ _ a w ha hw]
  simp [render, convert_dec r hr, convert_dec q hq, convert_hex, pad_width_zero]

theorem printf_add_reg (a w r q : Nat) (ha : a < 65536) (hw : w < 65536)
    (hr : r < 2 ^ 31) (hq : q < 2 ^ 31) :
    printf ⟨"\t0x%04X:\t%04x\tadd  v%d, v%d\n", [a, w, r, q]⟩ =
      PrintfResult.ok (String.mk (lineHead a w ++ ['a', 'd', 'd', ' ', ' ', 'v'] ++
        numeral 10 false r ++ [',', ' ', 'v'] ++ numeral 10 false q ++ ['\n'])) := by
  unfold printf
  simp only []
  have hp : parseFormat Mode.text "\t0x%04X:\t%04x\tadd  v%d, v%d\n".data =
      headPieces ++ [Piece.lit 'a', Piece.lit 'd', Piece.lit 'd', Piece.lit ' ', Piece.lit ' ',
        Piece.lit 'v', Piece.conv false 0 'd', Piece.lit ',', Piece.lit ' ', Piece.lit 'v',
        Piece.conv false 0 'd', Piece.lit '\n'] := by
    decide
  rw [hp, render_head _ _ a w ha hw]
  simp [render, convert_dec r hr, convert_dec q hq, convert_hex, pad_width_zero]

theorem printf_sub_reg (a w r q : Nat) (ha : a < 65536) (hw : w < 65536)
    (hr : r < 2 ^ 31) (hq : q < 2 ^ 31) :
    printf ⟨"\t0x%04X:\t%04x\tsub  v%d, v%d\n", [a, w, r, q]⟩ =
      PrintfResult.ok (String.mk (lineHead a w ++ ['s', 'u', 'b', ' ', ' ', 'v'] ++
        numeral 10 false r ++ [',', ' ', 'v'] ++ numeral 10 false q ++ ['\n'])) := by
  unfold printf
  simp only []
  have hp : parseFormat Mode.text "\t0x%04X:\t%04x\tsub  v%d, v%d\n".data =
      headPieces ++ [Piece.lit 's', Piece.lit 'u', Piece.lit 'b', Piece.lit ' ', Piece.lit ' ',
        Piece.lit 'v', Piece.conv false 0 'd', Piece.lit ',', Piece.lit ' ', Piece.lit 'v',
        Piece.conv false 0 'd', Piece.lit '\n'] := by
    decide
  rw [hp, render_head _ _ a w ha hw]
  simp [render, convert_dec r hr, convert_dec q hq, convert_hex, pad_width_zero]

theorem printf_shr (a w r : Nat) (ha : a < 65536) (hw : w < 65536)
    (hr : r < 2 ^ 31) :
    printf ⟨"\t0x%04X:\t%04x\tshr  v%d\n", [a, w, r]⟩ =
      PrintfResult.ok (String.mk (lineHead a w ++ ['s', 'h', 'r', ' ', ' ', 'v'] ++
        numeral 10 false r ++ ['\n'])) := by
  unfold printf
  simp only []
  have hp : parseFormat Mode.text "\t0x%04X:\t%04x\tshr  v%d\n".data =
      headPieces ++ [Piece.lit 's', Piece.lit 'h', Piece.lit 'r', Piece.lit ' ', Piece.lit ' ',
        Piece.lit 'v', Piece.conv false 0 'd', Piece.lit '\n'] := by
    decide
  rw [hp, render_head _ _ a w ha hw]
  simp [render, convert_dec r hr, convert_hex, pad_width_zero]

theorem printf_subn_reg (a w r q : Nat) (ha : a < 65536) (hw : w < 65536)
    (hr : r < 2 ^ 31) (hq : q < 2 ^ 31) :
    printf ⟨"\t0x%04X:\t%04x\tsubn v%d, v%d\n", [a, w, r, q]⟩ =
      PrintfResult.ok (String.mk (lineHead a w ++ ['s', 'u', 'b', 'n', ' ', 'v'] ++
        numeral 10 false r ++ [',', ' ', 'v'] ++ numeral 10 false q ++ ['\n'])) := by
  unfold printf
  simp only []
  have hp : parseFormat Mode.text "\t0x%04X:\t%04x\tsubn v%d, v%d\n".data =
      headPieces ++ [Piece.lit 's', Piece.lit 'u', Piece.lit 'b', Piece.lit 'n', Piece.lit ' ',
        Piece.lit 'v', Piece.conv false 0 'd', Piece.lit ',', Piece.lit ' ', Piece.lit 'v',
        Piece.conv false 0 'd', Piece.lit '\n'] := by
    decide
  rw [hp, render_head _ _ a w ha hw]
  simp [render, convert_dec r hr, convert_dec q hq, convert_hex, pad_width_zero]

theorem printf_shl (a w r : Nat) (ha : a < 65536) (hw : w < 65536)
    (hr : r < 2 ^ 31) :
    printf ⟨"\t0x%04X:\t%04x\tshl  v%d\n", [a, w, r]⟩ =
      PrintfResult.ok (String.mk (lineHead a w ++ ['s', 'h', 'l', ' ', ' ', 'v'] ++
        numeral 10 false r ++ ['\n'])) := by
  unfold printf
  simp only []
  have hp : parseFormat Mode.text "\t0x%04X:\t%04x\tshl  v%d\n".data =
      headPieces ++ [Piece.lit 's', Piece.lit 'h', Piece.lit 'l', Piece.lit ' ', Piece.lit ' ',
        Piece.lit 'v', Piece.conv false 0 'd', Piece.lit '\n'] := by
    decide
  rw [hp, render_head _ _ a w ha hw]
  simp [render, convert_dec r hr, convert_hex, pad_width_zero]

theorem printf_ld_DT (a w r : Nat) (ha : a < 65536) (hw : w < 65536)
    (hr : r < 2 ^ 31) :
    printf ⟨"\t0x%04X:\t%04x\tld   v%d, DT\n", [a, w, r]⟩ =
      PrintfResult.ok (String.mk (lineHead a w ++ ['l', 'd', ' ', ' ', ' ', 'v'] ++
        numeral 10 false r ++ [',', ' ', 'D', 'T', '\n'])) := by
  unfold printf
  simp only []
  have hp : parseFormat Mode.text "\t0x%04X:\t%04x\tld   v%d, DT\n".data =
      headPieces ++ [Piece.lit 'l', Piece.lit 'd', Piece.lit ' ', Piece.lit ' ', Piece.lit ' ',
        Piece.lit 'v', Piece.conv false 0 'd', Piece.lit ',', Piece.lit ' ', Piece.lit 'D',
        Piece.lit 'T', Piece.lit '\n'] := by
    decide
  rw [hp, render_head _ _ a w ha hw]
  simp [render, convert_dec r hr, convert_hex, pad_width_zero]

theorem printf_ld_K (a w r : Nat) (ha : a < 65536) (hw : w < 65536)
    (hr : r < 2 ^ 31) :
    printf ⟨"\t0x%04X:\t%04x\tld   v%d, K\n", [a, w, r]⟩ =
      PrintfResult.ok (String.mk (lineHead a w ++ ['l', 'd', ' ', ' ', ' ', 'v'] ++
        numeral 10 false r ++ [',', ' ', 'K', '\n'])) := by
  unfold printf
  simp only []
  have hp : parseFormat Mode.text "\t0x%04X:\t%04x\tld   v%d, K\n".data =
      headPieces ++ [Piece.lit 'l', Piece.lit 'd', Piece.lit ' ', Piece.lit ' ', Piece.lit ' ',
        Piece.lit 'v', Piece.conv false 0 'd', Piece.lit ',', Piece.lit ' ', Piece.lit 'K',
        Piece.lit '\n'] := by
    decide
  rw [hp, render_head _ _ a w ha hw]
  simp [render, convert_dec r hr, convert_hex, pad_width_zero]

theorem output_jmp (a w : Nat) (ha : a < 65536) (hw : w < 65536) (h : u w = 0x1) :
    output a w =
      some (PrintfResult.ok (String.mk (lineHead a w ++ ['j', 'm', 'p', ' ', ' ', '0', 'x'] ++
        pad true 4 (numeral 16 false (nnn w)) ++ ['\n']))) := by
  unfold output
  rw [mainLoopBody_family1 a w h, Option.map_some', printf_jmp a w (nnn w) ha hw]

theorem output_call (a w : Nat) (ha : a < 65536) (hw : w < 65536) (h : u w = 0x2) :
    output a w =
      some (PrintfResult.ok (String.mk (lineHead a w ++ ['c', 'a', 'l', 'l', ' ', '0', 'x'] ++
        pad true 4 (numeral 16 false (nnn w)) ++ ['\n']))) := by
  unfold output
  rw [mainLoopBody_family2 a w h, Option.map_some', printf_call a w (nnn w) ha hw]

theorem output_se_imm (a w : Nat) (ha : a < 65536) (hw : w < 65536) (h : u w = 0x3) :
    output a w =
      some (PrintfResult.ok (String.mk (lineHead a w ++ ['s', 'e', ' ', ' ', ' ', 'v'] ++
        numeral 10 false (x w) ++ [',', ' ', '0', 'x'] ++ pad true 2 (numeral 16 false (kk w)) ++
        [' ', '('] ++ numeral 10 false (kk w) ++ [')', '\n']))) := by
  unfold output
  rw [mainLoopBody_family3 a w h, Option.map_some',
    printf_se_imm a w (x w) (kk w) ha hw (x_lt w) (kk_lt w)]

theorem output_sne_imm (a w : Nat) (ha : a < 65536) (hw : w < 65536) (h : u w = 0x4) :
    output a w =
      some (PrintfResult.ok (String.mk (lineHead a w ++ ['s', 'n', 'e', ' ', ' ', 'v'] ++
        numeral 10 false (x w) ++ [',', ' ', '0', 'x'] ++ pad true 2 (numeral 16 false (kk w)) ++
        [' ', '('] ++ numeral 10 false (kk w) ++ [')', '\n']))) := by
  unfold output
  rw [mainLoopBody_family4 a w h, Option.map_some',
    printf_sne_imm a w (x w) (kk w) ha hw (x_lt w) (kk_lt w)]

theorem output_ld_imm (a w : Nat) (ha : a < 65536) (hw : w < 65536) (h : u w = 0x6) :
    output a w =
      some (PrintfResult.ok (String.mk (lineHead a w ++ ['l', 'd', ' ', ' ', ' ', 'v'] ++
        numeral 10 false (x w) ++ [',', ' ', '0', 'x'] ++ pad true 2 (numeral 16 false (kk w)) ++
        [' ', '('] ++ numeral 10 false (kk w) ++ [')', '\n']))) := by
  unfold output
  rw [mainLoopBody_family6 a w h, Option.map_some',
    printf_ld_imm a w (x w) (kk w) ha hw (x_lt w) (kk_lt w)]

theorem output_add_imm (a w : Nat) (ha : a < 65536) (hw : w < 65536) (h : u w = 0x7) :
    output a w =
      some (PrintfResult.ok (String.mk (lineHead a w ++ ['a', 'd', 'd', ' ', ' ', 'v'] ++
        numeral 10 false (x w) ++ [',', ' ', '0', 'x'] ++ pad true 2 (numeral 16 false (kk w)) ++
        [' ', '('] ++ numeral 10 false (kk w) ++ [')', '\n']))) := by
  unfold output
  rw [mainLoopBody_family7 a w h, Option.map_some',
    printf_add_imm a w (x w) (kk w) ha hw (x_lt w) (kk_lt w)]

theorem output_ld_I (a w : Nat) (ha : a < 65536) (hw : w < 65536) (h : u w = 0xA) :
    output a w =
      some (PrintfResult.ok (String.mk (lineHead a w ++ 
        ['l', 'd', ' ', ' ', ' ', 'I', ',', ' ', '0', 'x'] ++
        pad true 4 (numeral 16 false (nnn w)) ++ [' ', '('] ++ numeral 10 false (nnn w) ++
        [')', '\n']))) := by
  unfold output
  rw [mainLoopBody_familyA a w h, Option.map_some', printf_ld_I a w (nnn w) ha hw (nnn_lt w)]

theorem output_rnd (a w : Nat) (ha : a < 65536) (hw : w < 65536) (h : u w = 0xC) :
    output a w =
      some (PrintfResult.ok (String.mk (lineHead a w ++ ['r', 'n', 'd', ' ', ' ', 'v'] ++
        numeral 10 false (x w) ++ [',', ' ', '0', 'x'] ++ pad true 2 (numeral 16 false (kk w)) ++
        [' ', '('] ++ numeral 10 false (kk w) ++ [')', '\n']))) := by
  unfold output
  rw [mainLoopBody_familyC a w h, Option.map_some',
    printf_rnd a w (x w) (kk w) ha hw (x_lt w) (kk_lt w)]

theorem output_drw (a w : Nat) (ha : a < 65536) (hw : w < 65536) (h : u w = 0xD) :
    output a w =
      some (PrintfResult.ok (String.mk (lineHead a w ++ ['d', 'r', 'w', ' ', ' ', 'v'] ++
        numeral 10 false (x w) ++ [',', ' ', 'v'] ++ numeral 10 false (y w) ++
        [',', ' ', '0', 'x'] ++ numeral 16 false (n w) ++ [' ', '('] ++ numeral 10 false (n w) ++
        [')', '\n']))) := by
  unfold output
  rw [mainLoopBody_familyD a w h, Option.map_some',
    printf_drw a w (x w) (y w) (n w) ha hw (x_lt w) (y_lt w) (n_lt w)]

theorem output_ld_reg (a w : Nat) (ha : a < 65536) (hw : w < 65536) (h : u w = 0x8) (hl : l w = 0x0) :
    output a w =
      some (PrintfResult.ok (String.mk (lineHead a w ++ ['l', 'd', ' ', ' ', ' ', 'v'] ++
        numeral 10 false (x w) ++ [',', ' ', 'v'] ++ numeral 10 false (y w) ++ ['\n']))) := by
  unfold output
  rw [mainLoopBody_family8 a w h, family8_l0 a w hl, Option.map_some',
    printf_ld_reg a w (x w) (y w) ha hw (x_lt w) (y_lt w)]

theorem output_or_reg (a w : Nat) (ha : a < 65536) (hw : w < 65536) (h : u w = 0x8) (hl : l w = 0x1) :
    output a w =
      some (PrintfResult.ok (String.mk (lineHead a w ++ ['o', 'r', ' ', ' ', ' ', 'v'] ++
        numeral 10 false (x w) ++ [',', ' ', 'v'] ++ numeral 10 false (y w) ++ ['\n']))) := by
  unfold output
  rw [mainLoopBody_family8 a w h, family8_l1 a w hl, Option.map_some',
    printf_or_reg a w (x w) (y w) ha hw (x_lt w) (y_lt w)]

theorem output_and_reg (a w : Nat) (ha : a < 65536) (hw : w < 65536) (h : u w = 0x8) (hl : l w = 0x2) :
    output a w =
      some (PrintfResult.ok (String.mk (lineHead a w ++ ['a', 'n', 'd', ' ', ' ', 'v'] ++
        numeral 10 false (x w) ++ [',', ' ', 'v'] ++ numeral 10 false (y w) ++ ['\n']))) := by
  unfold output
  rw [mainLoopBody_family8 a w h, family8_l2 a w hl, Option.map_some',
    printf_and_reg a w (x w) (y w) ha hw (x_lt w) (y_lt w)]

theorem output_xor_reg (a w : Nat) (ha : a < 65536) (hw : w < 65536) (h : u w = 0x8) (hl : l w = 0x3) :
    output a w =
      some (PrintfResult.ok (String.mk (lineHead a w ++ ['x', 'o', 'r', ' ', ' ', 'v'] ++
        numeral 10 false (x w) ++ [',', ' ', 'v'] ++ numeral 10 false (y w) ++ ['\n']))) := by
  unfold output
  rw [mainLoopBody_family8 a w h, family8_l3 a w hl, Option.map_some',
    printf_xor_reg a w (x w) (y w) ha hw (x_lt w) (y_lt w)]

theorem output_add_reg (a w : Nat) (ha : a < 65536) (hw : w < 65536) (h : u w = 0x8) (hl : l w = 0x4) :
    output a w =
      some (PrintfResult.ok (String.mk (lineHead a w ++ ['a', 'd', 'd', ' ', ' ', 'v'] ++
        numeral 10 false (x w) ++ [',', ' ', 'v'] ++ numeral 10 false (y w) ++ ['\n']))) := by
  unfold output
  rw [mainLoopBody_family8 a w h, family8_l4 a w hl, Option.map_some',
    printf_add_reg a w (x w) (y w) ha hw (x_lt w) (y_lt w)]

theorem output_sub_reg (a w : Nat) (ha : a < 65536) (hw : w < 65536) (h : u w = 0x8) (hl : l w = 0x5) :
    output a w =
      some (PrintfResult.ok (String.mk (lineHead a w ++ ['s', 'u', 'b', ' ', ' ', 'v'] ++
        numeral 10 false (x w) ++ [',', ' ', 'v'] ++ numeral 10 false (y w) ++ ['\n']))) := by
  unfold output
  rw [mainLoopBody_family8 a w h, family8_l5 a w hl, Option.map_some',
    printf_sub_reg a w (x w) (y w) ha hw (x_lt w) (y_lt w)]

theorem output_shr (a w : Nat) (ha : a < 65536) (hw : w < 65536) (h : u w = 0x8) (hl : l w = 0x6) :
    output a w =
      some (PrintfResult.ok (String.mk (lineHead a w ++ ['s', 'h', 'r', ' ', ' ', 'v'] ++
        numeral 10 false (x w) ++ ['\n']))) := by
  unfold output
  rw [mainLoopBody_family8 a w h, family8_l6 a w hl, Option.map_some',
    printf_shr a w (x w) ha hw (x_lt w)]

theorem output_subn_reg (a w : Nat) (ha : a < 65536) (hw : w < 65536) (h : u w = 0x8) (hl : l w = 0x7) :
    output a w =
      some (PrintfResult.ok (String.mk (lineHead a w ++ ['s', 'u', 'b', 'n', ' ', 'v'] ++
        numeral 10 false (x w) ++ [',', ' ', 'v'] ++ numeral 10 false (y w) ++ ['\n']))) := by
  unfold output
  rw [mainLoopBody_family8 a w h, family8_l7 a w hl, Option.map_some',
    printf_subn_reg a w (x w) (y w) ha hw (x_lt w) (y_lt w)]

theorem output_shl (a w : Nat) (ha : a < 65536) (hw : w < 65536) (h : u w = 0x8) (hl : l w = 0xE) :
    output a w =
      some (PrintfResult.ok (String.mk (lineHead a w ++ ['s', 'h', 'l', ' ', ' ', 'v'] ++
        numeral 10 false (x w) ++ ['\n']))) := by
  unfold output
  rw [mainLoopBody_family8 a w h, family8_lE a w hl, Option.map_some',
    printf_shl a w (x w) ha hw (x_lt w)]

theorem output_ld_DT (a w : Nat) (ha : a < 65536) (hw : w < 65536) (h : u w = 0xF) (hl : l w = 0x7) :
    output a w =
      some (PrintfResult.ok (String.mk (lineHead a w ++ ['l', 'd', ' ', ' ', ' ', 'v'] ++
        numeral 10 false (x w) ++ [',', ' ', 'D', 'T', '\n']))) := by
  unfold output
  rw [mainLoopBody_familyF a w h, familyF_l7 a w hl, Option.map_some',
    printf_ld_DT a w (x w) ha hw (x_lt w)]

theorem output_ld_K (a w : Nat) (ha : a < 65536) (hw : w < 65536) (h : u w = 0xF) (hl : l w = 0xA) :
    output a w =
      some (PrintfResult.ok (String.mk (lineHead a w ++ ['l', 'd', ' ', ' ', ' ', 'v'] ++
        numeral 10 false (x w) ++ [',', ' ', 'K', '\n']))) := by
  unfold output
  rw [mainLoopBody_familyF a w h, familyF_lA a w hl, Option.map_some',
    printf_ld_K a w (x w) ha hw (x_lt w)]

theorem output_family8_none (a w : Nat) (h : u w = 0x8) (h7 : ¬ (l w ≤ 7)) (hE : l w ≠ 0xE) :
    output a w = none := by
  unfold output
  rw [mainLoopBody_family8 a w h, family8_none a w h7 hE]
  rfl

theorem output_familyE_none (a w : Nat) (h : u w = 0xE) : output a w = none := by
  unfold output
  rw [mainLoopBody_familyE a w h, familyE_none a w]
  rfl

theorem output_familyF_none (a w : Nat) (h : u w = 0xF) (h7 : l w ≠ 0x7) (hA : l w ≠ 0xA) :
    output a w = none := by
  unfold output
  rw [mainLoopBody_familyF a w h, familyF_none a w h7 hA]
  rfl

/-- Every statement of a family other than 0, 5, 9 and B writes its text in
full, and the text starts with the head for `addr` and `insn`. -/
theorem line_head_all (a w : Nat) (ha : a < 65536) (hw : w < 65536) (c : PrintfCall)
    (hc : mainLoopBody a w = some c)
    (h0 : (w >>> 12) &&& 0xF ≠ 0x0) (h5 : (w >>> 12) &&& 0xF ≠ 0x5)
    (h9 : (w >>> 12) &&& 0xF ≠ 0x9) (hB : (w >>> 12) &&& 0xF ≠ 0xB) :
    ∃ text, printf c = PrintfResult.ok text ∧
      (['\t', '0', 'x'] ++ hex4Digits true a ++ [':', '\t'] ++ hex4Digits false w ++ ['\t'])
        <+: text.data := by
  have hu := u_le w
  show ∃ text, printf c = PrintfResult.ok text ∧ lineHead a w <+: text.data
  interval_cases hk : u w
  case «0» => exact absurd hk h0
  case «5» => exact absurd hk h5
  case «9» => exact absurd hk h9
  case «11» => exact absurd hk hB
  case «8» => exact family8_headed a w ha hw c ((mainLoopBody_family8 a w hk).symm.trans hc)
  case «14» => rw [mainLoopBody_familyE a w hk, familyE_none] at hc; cases hc
  case «15» => exact familyF_headed a w ha hw c ((mainLoopBody_familyF a w hk).symm.trans hc)
  case «1» =>
    exact headed_line _ 3 a w _ c (by decide) (by rfl) ha hw
      ((mainLoopBody_family1 a w hk).symm.trans hc)
  case «2» =>
    exact headed_line _ 3 a w _ c (by decide) (by rfl) ha hw
      ((mainLoopBody_family2 a w hk).symm.trans hc)
  case «3» =>
    exact headed_line _ 5 a w _ c (by decide) (by rfl) ha hw
      ((mainLoopBody_family3 a w hk).symm.trans hc)
  case «4» =>
    exact headed_line _ 5 a w _ c (by decide) (by rfl) ha hw
      ((mainLoopBody_family4 a w hk).symm.trans hc)
  case «6» =>
    exact headed_line _ 5 a w _ c (by decide) (by rfl) ha hw
      ((mainLoopBody_family6 a w hk).symm.trans hc)
  case «7» =>
    exact headed_line _ 5 a w _ c (by decide) (by rfl) ha hw
      ((mainLoopBody_family7 a w hk).symm.trans hc)
  case «10» =>
    exact headed_line _ 4 a w _ c (by decide) (by rfl) ha hw
      ((mainLoopBody_familyA a w hk).symm.trans hc)
  case «12» =>
    exact headed_line _ 5 a w _ c (by decide) (by rfl) ha hw
      ((mainLoopBody_familyC a w hk).symm.trans hc)
  case «13» =>
    exact headed_line _ 6 a w _ c (by decide) (by rfl) ha hw
      ((mainLoopBody_familyD a w hk).symm.trans hc)

/-- C13, as the code has it: for a 16-bit address `a` and word `w` of a family
other than 0, 5, 9 and B, the statement executed writes its text in full, and
the text is a tab, `0x`, `a` in four upper-case hexadecimal digits, a colon, a
tab, `w` in four lower-case hexadecimal digits and a tab, then the mnemonic
(`jmp`, `call`, `se`, `sne`, `ld`, `add`, `ld   I`, `rnd`, `drw`; in family 8
`ld`, `or`, `and`, `xor`, `add`, `sub`, `shr`, `subn`, `shl`; in family F
`ld`), then the operands.  These are all the lines of these families: the
other words of families 8, E and F write nothing. -/
theorem C13_line_shape (a w : Nat) (ha : a < 65536) (hw : w < 65536) :
    (∀ c, mainLoopBody a w = some c →
      (w >>> 12) &&& 0xF ≠ 0x0 → (w >>> 12) &&& 0xF ≠ 0x5 →
      (w >>> 12) &&& 0xF ≠ 0x9 → (w >>> 12) &&& 0xF ≠ 0xB →
      ∃ text, printf c = PrintfResult.ok text ∧ lineHead a w <+: text.data) ∧
    lineHead a w =
      "\t0x".data ++ hex4Digits true a ++ ":\t".data ++ hex4Digits false w ++ "\t".data ∧
    ((w >>> 12) &&& 0xF = 0x1 → output a w =
      some (PrintfResult.ok (String.mk (lineHead a w ++ "jmp  0x".data ++
        pad true 4 (numeral 16 false (w &&& 0xFFF)) ++ "\n".data)))) ∧
    ((w >>> 12) &&& 0xF = 0x2 → output a w =
      some (PrintfResult.ok (String.mk (lineHead a w ++ "call 0x".data ++
        pad true 4 (numeral 16 false (w &&& 0xFFF)) ++ "\n".data)))) ∧
    ((w >>> 12) &&& 0xF = 0x3 → output a w =
      some (PrintfResult.ok (String.mk (lineHead a w ++ "se   v".data ++
        numeral 10 false ((w >>> 8) &&& 0xF) ++ ", 0x".data ++
        pad true 2 (numeral 16 false (w &&& 0xFF)) ++ " (".data ++ numeral 10 false (w &&& 0xFF) ++
        ")\n".data)))) ∧
    ((w >>> 12) &&& 0xF = 0x4 → output a w =
      some (PrintfResult.ok (String.mk (lineHead a w ++ "sne  v".data ++
        numeral 10 false ((w >>> 8) &&& 0xF) ++ ", 0x".data ++
        pad true 2 (numeral 16 false (w &&& 0xFF)) ++ " (".data ++ numeral 10 false (w &&& 0xFF) ++
        ")\n".data)))) ∧
    ((w >>> 12) &&& 0xF = 0x6 → output a w =
      some (PrintfResult.ok (String.mk (lineHead a w ++ "ld   v".data ++
        numeral 10 false ((w >>> 8) &&& 0xF) ++ ", 0x".data ++
        pad true 2 (numeral 16 false (w &&& 0xFF)) ++ " (".data ++ numeral 10 false (w &&& 0xFF) ++
        ")\n".data)))) ∧
    ((w >>> 12) &&& 0xF = 0x7 → output a w =
      some (PrintfResult.ok (String.mk (lineHead a w ++ "add  v".data ++
        numeral 10 false ((w >>> 8) &&& 0xF) ++ ", 0x".data ++
        pad true 2 (numeral 16 false (w &&& 0xFF)) ++ " (".data ++ numeral 10 false (w &&& 0xFF) ++
        ")\n".data)))) ∧
    ((w >>> 12) &&& 0xF = 0xA → output a w =
      some (PrintfResult.ok (String.mk (lineHead a w ++ "ld   I, 0x".data ++
        pad true 4 (numeral 16 false (w &&& 0xFFF)) ++ " (".data ++
        numeral 10 false (w &&& 0xFFF) ++ ")\n".data)))) ∧
    ((w >>> 12) &&& 0xF = 0xC → output a w =
      some (PrintfResult.ok (String.mk (lineHead a w ++ "rnd  v".data ++
        numeral 10 false ((w >>> 8) &&& 0xF) ++ ", 0x".data ++
        pad true 2 (numeral 16 false (w &&& 0xFF)) ++ " (".data ++ numeral 10 false (w &&& 0xFF) ++
        ")\n".data)))) ∧
    ((w >>> 12) &&& 0xF = 0xD → output a w =
      some (PrintfResult.ok (String.mk (lineHead a w ++ "drw  v".data ++
        numeral 10 false ((w >>> 8) &&& 0xF) ++ ", v".data ++
        numeral 10 false ((w >>> 4) &&& 0xF) ++ ", 0x".data ++ numeral 16 false (w &&& 0xF) ++
        " (".data ++ numeral 10 false (w &&& 0xF) ++ ")\n".data)))) ∧
    ((w >>> 12) &&& 0xF = 0x8 → w &&& 0xF = 0x0 → output a w =
      some (PrintfResult.ok (String.mk (lineHead a w ++ "ld   v".data ++
        numeral 10 false ((w >>> 8) &&& 0xF) ++ ", v".data ++
        numeral 10 false ((w >>> 4) &&& 0xF) ++ "\n".data)))) ∧
    ((w >>> 12) &&& 0xF = 0x8 → w &&& 0xF = 0x1 → output a w =
      some (PrintfResult.ok (String.mk (lineHead a w ++ "or   v".data ++
        numeral 10 false ((w >>> 8) &&& 0xF) ++ ", v".data ++
        numeral 10 false ((w >>> 4) &&& 0xF) ++ "\n".data)))) ∧
    ((w >>> 12) &&& 0xF = 0x8 → w &&& 0xF = 0x2 → output a w =
      some (PrintfResult.ok (String.mk (lineHead a w ++ "and  v".data ++
        numeral 10 false ((w >>> 8) &&& 0xF) ++ ", v".data ++
        numeral 10 false ((w >>> 4) &&& 0xF) ++ "\n".data)))) ∧
    ((w >>> 12) &&& 0xF = 0x8 → w &&& 0xF = 0x3 → output a w =
      some (PrintfResult.ok (String.mk (lineHead a w ++ "xor  v".data ++
        numeral 10 false ((w >>> 8) &&& 0xF) ++ ", v".data ++
        numeral 10 false ((w >>> 4) &&& 0xF) ++ "\n".data)))) ∧
    ((w >>> 12) &&& 0xF = 0x8 → w &&& 0xF = 0x4 → output a w =
      some (PrintfResult.ok (String.mk (lineHead a w ++ "add  v".data ++
        numeral 10 false ((w >>> 8) &&& 0xF) ++ ", v".data ++
        numeral 10 false ((w >>> 4) &&& 0xF) ++ "\n".data)))) ∧
    ((w >>> 12) &&& 0xF = 0x8 → w &&& 0xF = 0x5 → output a w =
      some (PrintfResult.ok (String.mk (lineHead a w ++ "sub  v".data ++
        numeral 10 false ((w >>> 8) &&& 0xF) ++ ", v".data ++
        numeral 10 false ((w >>> 4) &&& 0xF) ++ "\n".data)))) ∧
    ((w >>> 12) &&& 0xF = 0x8 → w &&& 0xF = 0x6 → output a w =
      some (PrintfResult.ok (String.mk (lineHead a w ++ "shr  v".data ++
        numeral 10 false ((w >>> 8) &&& 0xF) ++ "\n".data)))) ∧
    ((w >>> 12) &&& 0xF = 0x8 → w &&& 0xF = 0x7 → output a w =
      some (PrintfResult.ok (String.mk (lineHead a w ++ "subn v".data ++
        numeral 10 false ((w >>> 8) &&& 0xF) ++ ", v".data ++
        numeral 10 false ((w >>> 4) &&& 0xF) ++ "\n".data)))) ∧
    ((w >>> 12) &&& 0xF = 0x8 → w &&& 0xF = 0xE → output a w =
      some (PrintfResult.ok (String.mk (lineHead a w ++ "shl  v".data ++
        numeral 10 false ((w >>> 8) &&& 0xF) ++ "\n".data)))) ∧
    ((w >>> 12) &&& 0xF = 0xF → w &&& 0xF = 0x7 → output a w =
      some (PrintfResult.ok (String.mk (lineHead a w ++ "ld   v".data ++
        numeral 10 false ((w >>> 8) &&& 0xF) ++ ", DT\n".data)))) ∧
    ((w >>> 12) &&& 0xF = 0xF → w &&& 0xF = 0xA → output a w =
      some (PrintfResult.ok (String.mk (lineHead a w ++ "ld   v".data ++
        numeral 10 false ((w >>> 8) &&& 0xF) ++ ", K\n".data)))) ∧
    ((w >>> 12) &&& 0xF = 0x8 → ¬ (w &&& 0xF ≤ 7) → w &&& 0xF ≠ 0xE → output a w = none) ∧
    ((w >>> 12) &&& 0xF = 0xE → output a w = none) ∧
    ((w >>> 12) &&& 0xF = 0xF → w &&& 0xF ≠ 0x7 → w &&& 0xF ≠ 0xA → output a w = none) := by
  exact ⟨fun c hc h0 h5 h9 hB => line_head_all a w ha hw c hc h0 h5 h9 hB, rfl,
    output_jmp a w ha hw,
    output_call a w ha hw,
    output_se_imm a w ha hw,
    output_sne_imm a w ha hw,
    output_ld_imm a w ha hw,
    output_add_imm a w ha hw,
    output_ld_I a w ha hw,
    output_rnd a w ha hw,
    output_drw a w ha hw,
    output_ld_reg a w ha hw,
    output_or_reg a w ha hw,
    output_and_reg a w ha hw,
    output_xor_reg a w ha hw,
    output_add_reg a w ha hw,
    output_sub_reg a w ha hw,
    output_shr a w ha hw,
    output_subn_reg a w ha hw,
    output_shl a w ha hw,
    output_ld_DT a w ha hw,
    output_ld_K a w ha hw,
    output_family8_none a w, output_familyE_none a w,
    output_familyF_none a w⟩

/-- C13 amended, at address `0x200` and the words `0x1ABC`, `0x8AB4` and
`0xFA07`. -/
theorem C13_line_shape_witness :
    lineHead 0x200 0x1ABC = "\t0x0200:\t1abc\t".data ∧
    output 0x200 0x1ABC = some (PrintfResult.ok "\t0x0200:\t1abc\tjmp  0x0abc\n") ∧
    output 0x200 0x8AB4 = some (PrintfResult.ok "\t0x0200:\t8ab4\tadd  v10, v11\n") ∧
    output 0x200 0xFA07 = some (PrintfResult.ok "\t0x0200:\tfa07\tld   v10, DT\n") :=
  ⟨(C13_line_shape 0x200 0x1ABC (by decide) (by decide)).2.1,
   (C13_line_shape 0x200 0x1ABC (by decide) (by decide)).2.2.1 (by decide),
   (C13_line_shape 0x200 0x8AB4 (by decide) (by decide)
     ).2.2.2.2.2.2.2.2.2.2.2.2.2.2.2.1 (by decide) (by decide),
   (C13_line_shape 0x200 0xFA07 (by decide) (by decide)
     ).2.2.2.2.2.2.2.2.2.2.2.2.2.2.2.2.2.2.2.2.1 (by decide) (by decide)⟩

/-- C13 fails as stated: the line for `0x1ABC` at `0x200` begins with a tab,
not with `0x`, and shows the word as `1abc`, in lower case. -/
theorem C13_counterexample :
    output 0x200 0x1ABC = some (PrintfResult.ok "\t0x0200:\t1abc\tjmp  0x0abc\n") ∧
    "0x".data.isPrefixOf "\t0x0200:\t1abc\tjmp  0x0abc\n".data = false ∧
    "\t0x0200:\t1ABC\t".data.isPrefixOf "\t0x0200:\t1abc\tjmp  0x0abc\n".data = false := by
  decide

/-! ## Register operands -/

/-- C14, as the code has it: in every statement that shows a register, those of
families 5 and 9 apart, a register operand is written by `v%d`: the letter `v`
and the register index in decimal, one digit for 0..9 and the two digits `10`
.. `15` for 10..15.  The statements are those of families 3, 4, 6, 7, C, D,
of family 8 and of family F with low nibble 7 or 0xA; the line of each is
given in full, and the other words of families 8, E and F write nothing. -/
theorem C14_registers_in_decimal (a w : Nat) (ha : a < 65536) (hw : w < 65536) :
    (∀ r, r ≤ 15 → numeral 10 false r =
      if r < 10 then [Char.ofNat (48 + r)] else ['1', Char.ofNat (48 + (r - 10))]) ∧
    ((w >>> 12) &&& 0xF = 0x3 → output a w =
      some (PrintfResult.ok (String.mk (lineHead a w ++ "se   v".data ++
        numeral 10 false ((w >>> 8) &&& 0xF) ++ ", 0x".data ++
        pad true 2 (numeral 16 false (w &&& 0xFF)) ++ " (".data ++ numeral 10 false (w &&& 0xFF) ++
        ")\n".data)))) ∧
    ((w >>> 12) &&& 0xF = 0x4 → output a w =
      some (PrintfResult.ok (String.mk (lineHead a w ++ "sne  v".data ++
        numeral 10 false ((w >>> 8) &&& 0xF) ++ ", 0x".data ++
        pad true 2 (numeral 16 false (w &&& 0xFF)) ++ " (".data ++ numeral 10 false (w &&& 0xFF) ++
        ")\n".data)))) ∧
    ((w >>> 12) &&& 0xF = 0x6 → output a w =
      some (PrintfResult.ok (String.mk (lineHead a w ++ "ld   v".data ++
        numeral 10 false ((w >>> 8) &&& 0xF) ++ ", 0x".data ++
        pad true 2 (numeral 16 false (w &&& 0xFF)) ++ " (".data ++ numeral 10 false (w &&& 0xFF) ++
        ")\n".data)))) ∧
    ((w >>> 12) &&& 0xF = 0x7 → output a w =
      some (PrintfResult.ok (String.mk (lineHead a w ++ "add  v".data ++
        numeral 10 false ((w >>> 8) &&& 0xF) ++ ", 0x".data ++
        pad true 2 (numeral 16 false (w &&& 0xFF)) ++ " (".data ++ numeral 10 false (w &&& 0xFF) ++
        ")\n".data)))) ∧
    ((w >>> 12) &&& 0xF = 0xC → output a w =
      some (PrintfResult.ok (String.mk (lineHead a w ++ "rnd  v".data ++
        numeral 10 false ((w >>> 8) &&& 0xF) ++ ", 0x".data ++
        pad true 2 (numeral 16 false (w &&& 0xFF)) ++ " (".data ++ numeral 10 false (w &&& 0xFF) ++
        ")\n".data)))) ∧
    ((w >>> 12) &&& 0xF = 0xD → output a w =
      some (PrintfResult.ok (String.mk (lineHead a w ++ "drw  v".data ++
        numeral 10 false ((w >>> 8) &&& 0xF) ++ ", v".data ++
        numeral 10 false ((w >>> 4) &&& 0xF) ++ ", 0x".data ++ numeral 16 false (w &&& 0xF) ++
        " (".data ++ numeral 10 false (w &&& 0xF) ++ ")\n".data)))) ∧
    ((w >>> 12) &&& 0xF = 0x8 → w &&& 0xF = 0x0 → output a w =
      some (PrintfResult.ok (String.mk (lineHead a w ++ "ld   v".data ++
        numeral 10 false ((w >>> 8) &&& 0xF) ++ ", v".data ++
        numeral 10 false ((w >>> 4) &&& 0xF) ++ "\n".data)))) ∧
    ((w >>> 12) &&& 0xF = 0x8 → w &&& 0xF = 0x1 → output a w =
      some (PrintfResult.ok (String.mk (lineHead a w ++ "or   v".data ++
        numeral 10 false ((w >>> 8) &&& 0xF) ++ ", v".data ++
        numeral 10 false ((w >>> 4) &&& 0xF) ++ "\n".data)))) ∧
    ((w >>> 12) &&& 0xF = 0x8 → w &&& 0xF = 0x2 → output a w =
      some (PrintfResult.ok (String.mk (lineHead a w ++ "and  v".data ++
        numeral 10 false ((w >>> 8) &&& 0xF) ++ ", v".data ++
        numeral 10 false ((w >>> 4) &&& 0xF) ++ "\n".data)))) ∧
    ((w >>> 12) &&& 0xF = 0x8 → w &&& 0xF = 0x3 → output a w =
      some (PrintfResult.ok (String.mk (lineHead a w ++ "xor  v".data ++
        numeral 10 false ((w >>> 8) &&& 0xF) ++ ", v".data ++
        numeral 10 false ((w >>> 4) &&& 0xF) ++ "\n".data)))) ∧
    ((w >>> 12) &&& 0xF = 0x8 → w &&& 0xF = 0x4 → output a w =
      some (PrintfResult.ok (String.mk (lineHead a w ++ "add  v".data ++
        numeral 10 false ((w >>> 8) &&& 0xF) ++ ", v".data ++
        numeral 10 false ((w >>> 4) &&& 0xF) ++ "\n".data)))) ∧
    ((w >>> 12) &&& 0xF = 0x8 → w &&& 0xF = 0x5 → output a w =
      some (PrintfResult.ok (String.mk (lineHead a w ++ "sub  v".data ++
        numeral 10 false ((w >>> 8) &&& 0xF) ++ ", v".data ++
        numeral 10 false ((w >>> 4) &&& 0xF) ++ "\n".data)))) ∧
    ((w >>> 12) &&& 0xF = 0x8 → w &&& 0xF = 0x6 → output a w =
      some (PrintfResult.ok (String.mk (lineHead a w ++ "shr  v".data ++
        numeral 10 false ((w >>> 8) &&& 0xF) ++ "\n".data)))) ∧
    ((w >>> 12) &&& 0xF = 0x8 → w &&& 0xF = 0x7 → output a w =
      some (PrintfResult.ok (String.mk (lineHead a w ++ "subn v".data ++
        numeral 10 false ((w >>> 8) &&& 0xF) ++ ", v".data ++
        numeral 10 false ((w >>> 4) &&& 0xF) ++ "\n".data)))) ∧
    ((w >>> 12) &&& 0xF = 0x8 → w &&& 0xF = 0xE → output a w =
      some (PrintfResult.ok (String.mk (lineHead a w ++ "shl  v".data ++
        numeral 10 false ((w >>> 8) &&& 0xF) ++ "\n".data)))) ∧
    ((w >>> 12) &&& 0xF = 0xF → w &&& 0xF = 0x7 → output a w =
      some (PrintfResult.ok (String.mk (lineHead a w ++ "ld   v".data ++
        numeral 10 false ((w >>> 8) &&& 0xF) ++ ", DT\n".data)))) ∧
    ((w >>> 12) &&& 0xF = 0xF → w &&& 0xF = 0xA → output a w =
      some (PrintfResult.ok (String.mk (lineHead a w ++ "ld   v".data ++
        numeral 10 false ((w >>> 8) &&& 0xF) ++ ", K\n".data)))) ∧
    ((w >>> 12) &&& 0xF = 0x8 → ¬ (w &&& 0xF ≤ 7) → w &&& 0xF ≠ 0xE → output a w = none) ∧
    ((w >>> 12) &&& 0xF = 0xE → output a w = none) ∧
    ((w >>> 12) &&& 0xF = 0xF → w &&& 0xF ≠ 0x7 → w &&& 0xF ≠ 0xA → output a w = none) := by
  exact ⟨numeral_register,
    output_se_imm a w ha hw,
    output_sne_imm a w ha hw,
    output_ld_imm a w ha hw,
    output_add_imm a w ha hw,
    output_rnd a w ha hw,
    output_drw a w ha hw,
    output_ld_reg a w ha hw,
    output_or_reg a w ha hw,
    output_and_reg a w ha hw,
    output_xor_reg a w ha hw,
    output_add_reg a w ha hw,
    output_sub_reg a w ha hw,
    output_shr a w ha hw,
    output_subn_reg a w ha hw,
    output_shl a w ha hw,
    output_ld_DT a w ha hw,
    output_ld_K a w ha hw,
    output_family8_none a w, output_familyE_none a w,
    output_familyF_none a w⟩

/-- C14 amended, at `0x6A3F`, `0x8AB4` and `0x8FB6` read at `0x200`: the
registers are named `v10`, `v11` and `v15`. -/
theorem C14_registers_in_decimal_witness :
    numeral 10 false 10 = ['1', '0'] ∧ numeral 10 false 15 = ['1', '5'] ∧
    output 0x200 0x6A3F = some (PrintfResult.ok "\t0x0200:\t6a3f\tld   v10, 0x3f (63)\n") ∧
    output 0x200 0x8AB4 = some (PrintfResult.ok "\t0x0200:\t8ab4\tadd  v10, v11\n") ∧
    output 0x200 0x8FB6 = some (PrintfResult.ok "\t0x0200:\t8fb6\tshr  v15\n") :=
  ⟨(C14_registers_in_decimal 0x200 0x6A3F (by decide) (by decide)).1 10 (by decide),
   (C14_registers_in_decimal 0x200 0x6A3F (by decide) (by decide)).1 15 (by decide),
   (C14_registers_in_decimal 0x200 0x6A3F (by decide) (by decide)).2.2.2.1 (by decide),
   (C14_registers_in_decimal 0x200 0x8AB4 (by decide) (by decide)
     ).2.2.2.2.2.2.2.2.2.2.2.1 (by decide) (by decide),
   (C14_registers_in_decimal 0x200 0x8FB6 (by decide) (by decide)
     ).2.2.2.2.2.2.2.2.2.2.2.2.2.1 (by decide) (by decide)⟩

/-- C14 fails as stated: register 10 of `0x6A3F` is written `v10`, not `vA`,
the registers of `0x8AB4` are written `v10` and `v11`, and register 15 of
`0x8FB6` is written `v15`. -/
theorem C14_counterexample :
    output 0x200 0x6A3F = some (PrintfResult.ok "\t0x0200:\t6a3f\tld   v10, 0x3f (63)\n") ∧
    output 0x200 0x6A3F ≠ some (PrintfResult.ok "\t0x0200:\t6a3f\tld   vA, 0x3f (63)\n") ∧
    output 0x200 0x8AB4 = some (PrintfResult.ok "\t0x0200:\t8ab4\tadd  v10, v11\n") ∧
    output 0x200 0x8FB6 = some (PrintfResult.ok "\t0x0200:\t8fb6\tshr  v15\n") := by
  decide

end Chip8
